import Mathlib

/-!
# Verification of the Registry Normalization & Enrichment Proposal Engine

Shallow embedding of the core of `lawfirm_cli` (registry normalizers,
proposal generator, apply engine, selection prompt) together with proofs
of the specification's testable properties.

Python values decoded from JSON are modelled by the inductive type `Json`;
Python dicts are insertion-ordered association lists; Python `None` is
`Json.null` (or `Option.none` at typed call sites); Python exceptions are
modelled with `Except PyErr`.
-/

namespace BizDB

/-- A decoded JSON value, as Python's `json.loads` produces it.
Numbers are modelled as integers (no claim depends on float behaviour). -/
inductive Json where
  | null : Json
  | bool : Bool → Json
  | num : Int → Json
  | str : String → Json
  | arr : List Json → Json
  | obj : List (String × Json) → Json
deriving Repr

/-- Python exception kinds that the embedded code can raise. -/
inductive PyErr where
  | attributeError : PyErr
  | typeError : PyErr
deriving Repr, DecidableEq

/-- Whitespace as Python's `str.strip` removes it (ASCII). -/
def pyIsSpace (c : Char) : Bool :=
  c == ' ' || c == '\t' || c == '\n' || c == '\r' || c == '\x0b' || c == '\x0c'

/-- Model of Python `s.strip()` (list-based so that it reduces). -/
def pyStrip (s : String) : String :=
  String.mk (((s.data.dropWhile pyIsSpace).reverse.dropWhile pyIsSpace).reverse)

/-- Model of Python `s.replace(c, "")` for a one-character pattern. -/
def removeChar (s : String) (c : Char) : String :=
  String.mk (s.data.filter (fun x => x != c))

/-- Model of Python `s.lower()` (ASCII). -/
def pyLower (s : String) : String := String.mk (s.data.map Char.toLower)

/-- Model of Python `s.upper()` (ASCII). -/
def pyUpper (s : String) : String := String.mk (s.data.map Char.toUpper)

/-- Model of Python `s[:n]`. -/
def pyTake (s : String) (n : Nat) : String := String.mk (s.data.take n)

/-- Python truthiness of a decoded JSON value. -/
def Json.truthy : Json → Bool
  | .null => false
  | .bool b => b
  | .num n => n != 0
  | .str s => s != ""
  | .arr xs => !xs.isEmpty
  | .obj fs => !fs.isEmpty

/-- First-match lookup in an association list (Python dict lookup). -/
def lookupAssoc {α : Type} (m : List (String × α)) (k : String) : Option α :=
  (m.find? (fun kv => kv.1 == k)).map (·.2)

/-- Python `d.get(k, default)` on a value already known to be a dict. -/
def dictGetD (fs : List (String × Json)) (k : String) (d : Json) : Json :=
  (lookupAssoc fs k).getD d

/-- Python `d.get(k)` on a value already known to be a dict. -/
def dictGet (fs : List (String × Json)) (k : String) : Json :=
  dictGetD fs k .null

/-- Python `x.get(k, default)` on a value of unknown shape: raises
`AttributeError` unless `x` is a dict. -/
def pyGetD (x : Json) (k : String) (d : Json) : Except PyErr Json :=
  match x with
  | .obj fs => .ok (dictGetD fs k d)
  | _ => .error .attributeError

/-- Python `x.get(k)` on a value of unknown shape. -/
def pyGet (x : Json) (k : String) : Except PyErr Json :=
  pyGetD x k .null

mutual

/-- Python `repr` of a decoded JSON value (container elements are shown
with `repr`, strings with quotes). -/
def pyRepr : Json → String
  | .null => "None"
  | .bool b => if b then "True" else "False"
  | .num n => toString n
  | .str s => "'" ++ s ++ "'"
  | .arr xs => "[" ++ pyReprList xs ++ "]"
  | .obj fs => "\x7b" ++ pyReprObj fs ++ "\x7d"

def pyReprList : List Json → String
  | [] => ""
  | [x] => pyRepr x
  | x :: xs => pyRepr x ++ ", " ++ pyReprList xs

def pyReprObj : List (String × Json) → String
  | [] => ""
  | [kv] => "'" ++ kv.1 ++ "': " ++ pyRepr kv.2
  | kv :: fs => "'" ++ kv.1 ++ "': " ++ pyRepr kv.2 ++ ", " ++ pyReprObj fs
end

/-- Python `str` of a decoded JSON value (top-level strings unquoted). -/
def pyStr : Json → String
  | .str s => s
  | v => pyRepr v

/-- The candidate key names searched by `_ensure_str` for a usable text
value inside a dict, in source order. -/
def ensureStrKeys : List String :=
  ["value", "text", "nazwa", "name", "opis",
   "nazwaSkrocona", "formaPrawna", "status",
   "kodDzial", "kod", "imiona", "nazwisko"]

/-- The candidate-key search loop of `_ensure_str`:
`for key in [...]: if key in d and d[key]: return str(d[key])`. -/
def ensureStrKeySearch (fs : List (String × Json)) : Option String :=
  ensureStrKeys.findSome? (fun key =>
    match lookupAssoc fs key with
    | some v => if v.truthy then some (pyStr v) else none
    | none => none)

/-- The fallback loop of `_ensure_str` for a dict inside a list:
`for v in d.values(): if isinstance(v, str) and v.strip(): return v`. -/
def ensureStrValueFallback (fs : List (String × Json)) : Option String :=
  fs.findSome? (fun kv =>
    match kv.2 with
    | .str s => if pyStrip s != "" then some s else none
    | _ => none)

/-- Embedding of `_ensure_str` (krs_client.py): safely extract a scalar
string from a value of unknown shape, or absent.  Total: the source
function has no raise point. -/
def ensureStr : Json → Option String
  | .null => none
  | .str s => if pyStrip s == "" then none else some s
  | .num n => some (toString n)
  | .bool b => some (if b then "True" else "False")
  | .arr [] => none
  | .arr (first :: _) =>
    match first with
    | .str s => if pyStrip s == "" then none else some s
    | .obj fs =>
      match ensureStrKeySearch fs with
      | some r => some r
      | none =>
        match ensureStrValueFallback fs with
        | some r => some r
        | none => if Json.truthy (.obj fs) then some (pyRepr (.obj fs)) else none
    | f => if f.truthy then some (pyStr f) else none
  | .obj fs => ensureStrKeySearch fs

/-- Embedding of `_ensure_dict` (krs_client.py): coerce a value of unknown
shape to a dict, extracting the first element of a list when needed. -/
def ensureDict : Json → List (String × Json)
  | .obj fs => fs
  | .arr (first :: _) =>
    match first with
    | .obj fs => fs
    | _ => []
  | _ => []

/-- Python `a or b` on decoded JSON values. -/
def jsonOr (a b : Json) : Json := if a.truthy then a else b

/-- Python `a or b` where evaluating `b` may raise (short-circuit). -/
def pyOrE (a : Json) (b : Except PyErr Json) : Except PyErr Json :=
  if a.truthy then .ok a else b

/-- Python `v or d` on an optional string (falsy: `None` and `""`). -/
def pyOrStr (v : Option String) (d : String) : String :=
  match v with
  | some s => if s == "" then d else s
  | none => d

/-- Python truthiness of an optional string (`None`-or-`str` value). -/
def truthyS (v : Option String) : Bool :=
  match v with
  | some s => s != ""
  | none => false

/-- Python `str()` of an optional string (`str(None)` is `"None"`). -/
def pyStrS (v : Option String) : String :=
  match v with
  | some s => s
  | none => "None"

/-- A calendar date as produced by `datetime.strptime(s, "%Y-%m-%d").date()`. -/
structure PyDate where
  year : Nat
  month : Nat
  day : Nat
deriving Repr, DecidableEq

/-- Day count of a month, with leap years (as `strptime` validates). -/
def daysInMonth (y m : Nat) : Nat :=
  if m == 2 then
    if y % 4 == 0 && (y % 100 != 0 || y % 400 == 0) then 29 else 28
  else if m == 4 || m == 6 || m == 9 || m == 11 then 30
  else 31

/-- Parse a digit string into a number, absent when empty or non-digit. -/
def digitsToNat (l : List Char) : Option Nat :=
  if l.isEmpty then none
  else if l.all Char.isDigit then
    some (l.foldl (fun n c => n * 10 + (c.toNat - 48)) 0)
  else none

/-- Parse a `YYYY-MM-DD` string; any failure yields absent. -/
def parseYMD (s : String) : Option PyDate :=
  match (s.data.splitOn (Char.ofNat 45)).map digitsToNat with
  | [some y, some m, some d] =>
    if 1 ≤ m && m ≤ 12 && 1 ≤ d && d ≤ daysInMonth y m then
      some { year := y, month := m, day := d }
    else none
  | _ => none

/-- Embedding of `_parse_date` (krs_client.py), whose argument is the
result of `_ensure_str`: a leading 10-character `YYYY-MM-DD` slice, any
parse failure degrading to absent. -/
def parse_date (date_str : Option String) : Option PyDate :=
  match date_str with
  | none => none
  | some s => if s == "" then none else parseYMD (pyTake s 10)

/-- Embedding of `_parse_date` (ceidg_client.py), which is applied to a
raw payload value: falsy values yield absent, a string is parsed from its
leading 10 characters, and a truthy non-string raises `TypeError`
(uncaught: the `except` clause lists only `ValueError` and `IndexError`). -/
def parse_date_ceidg (v : Json) : Except PyErr (Option PyDate) :=
  if !v.truthy then .ok none
  else match v with
    | .str s => .ok (parseYMD (pyTake s 10))
    | _ => .error .typeError

/-- Embedding of the `NormalizedAddress` dataclass (models.py). -/
structure NormalizedAddress where
  address_type : String := "MAIN"
  country : String := "PL"
  voivodeship : Option String := none
  county : Option String := none
  gmina : Option String := none
  city : Option String := none
  postal_code : Option String := none
  post_office : Option String := none
  street : Option String := none
  building_no : Option String := none
  unit_no : Option String := none
  additional_line : Option String := none
deriving Repr, DecidableEq

/-- Embedding of `NormalizedAddress.to_dict` (models.py): the dict used
for DB insertion and for the change summary, in source key order. -/
def NormalizedAddress.to_dict (a : NormalizedAddress) : List (String × Option String) :=
  [("address_type", some a.address_type), ("country", some a.country),
   ("voivodeship", a.voivodeship), ("county", a.county), ("gmina", a.gmina),
   ("city", a.city), ("postal_code", a.postal_code),
   ("post_office", a.post_office), ("street", a.street),
   ("building_no", a.building_no), ("unit_no", a.unit_no),
   ("additional_line", a.additional_line)]

/-- The address constructor call inside `_extract_address` (krs_client.py),
applied once the payload has been coerced to a dict. -/
def mkKrsAddress (fs : List (String × Json)) : NormalizedAddress :=
  { address_type := "MAIN"
    country := pyOrStr (ensureStr (dictGet fs "kraj")) "PL"
    voivodeship := ensureStr (dictGet fs "wojewodztwo")
    county := ensureStr (dictGet fs "powiat")
    gmina := ensureStr (dictGet fs "gmina")
    city := ensureStr (dictGet fs "miejscowosc")
    postal_code := ensureStr (dictGet fs "kodPocztowy")
    post_office := ensureStr (dictGet fs "poczta")
    street := ensureStr (dictGet fs "ulica")
    building_no := ensureStr (dictGet fs "nrDomu")
    unit_no := ensureStr (dictGet fs "nrLokalu") }

/-- Embedding of `_extract_address` (krs_client.py). -/
def extract_address (addr_data : Json) : Option NormalizedAddress :=
  if !addr_data.truthy then none
  else
    match addr_data with
    | .obj fs => some (mkKrsAddress fs)
    | .arr (Json.obj fs :: _) => some (mkKrsAddress fs)
    | _ => none

/-- One representative entry extracted by the KRS normalizer. -/
structure KrsRepresentative where
  name : String
  function : Option String
  pesel : Option String
deriving Repr, DecidableEq

/-- Embedding of the `NormalizedKRSProfile` dataclass (models.py), with
field values as the KRS normalizer actually produces them. -/
structure NormalizedKRSProfile where
  krs : Option String := none
  nip : Option String := none
  regon : Option String := none
  official_name : Option String := none
  short_name : Option String := none
  legal_form : Option String := none
  legal_form_code : Option String := none
  registry_status : Option String := none
  registration_date : Option PyDate := none
  seat_address : Option NormalizedAddress := none
  correspondence_address : Option NormalizedAddress := none
  email : Option String := none
  website : Option String := none
  phone : Option String := none
  share_capital : Option String := none
  share_capital_currency : String := "PLN"
  pkd_main : Option String := none
  pkd_codes : List String := []
  representatives : List KrsRepresentative := []
  raw_payload : Json := .null
deriving Repr

/-- The per-entry inner identifier dict of a KRS historical identifier
entry: `_ensure_dict(item_dict.get("identyfikatory", {}))`. -/
def innerIdentOf (item : Json) : List (String × Json) :=
  ensureDict (dictGetD (ensureDict item) "identyfikatory" (.obj []))

/-- `_ensure_str(inner_ident.get("nip"))` for one historical entry. -/
def nipOfEntry (item : Json) : Option String :=
  ensureStr (dictGet (innerIdentOf item) "nip")

/-- `_ensure_str(inner_ident.get("regon"))` for one historical entry. -/
def regonOfEntry (item : Json) : Option String :=
  ensureStr (dictGet (innerIdentOf item) "regon")

/-- The reverse-scan loop of `normalize_krs_response` over historical
identifier entries: keep the first non-absent value per kind, break once
both NIP and REGON are resolved. -/
def krsIdentLoop : List Json → Option String → Option String → Option String × Option String
  | [], nip, regon => (nip, regon)
  | item :: rest, nip, regon =>
    let nip' := if truthyS nip then nip else nipOfEntry item
    let regon' := if truthyS regon then regon else regonOfEntry item
    if truthyS nip' && truthyS regon' then (nip', regon')
    else krsIdentLoop rest nip' regon'

/-- Embedding of the identifier-extraction section of
`normalize_krs_response` (krs_client.py, the `identyfikatory` handling):
a list is walked in reverse, a single dict is read directly. -/
def extractKrsIdentifiers (identyfikatory_list : Json) : Option String × Option String :=
  match identyfikatory_list with
  | .arr items => krsIdentLoop items.reverse none none
  | .obj fs =>
    let inner := ensureDict (dictGetD fs "identyfikatory" (.obj fs))
    (ensureStr (dictGet inner "nip"), ensureStr (dictGet inner "regon"))
  | _ => (none, none)

/-- `if isinstance(x, dict): x = [x]; elif not isinstance(x, list): x = []`. -/
def coerceToList (v : Json) : List Json :=
  match v with
  | .obj fs => [.obj fs]
  | .arr xs => xs
  | _ => []

/-- The PKD-code collection loop of `normalize_krs_response`: collect
truthy codes in order, track the first one as the main code. -/
def krsPkdFold (pkds : List Json) : List Json × Json :=
  pkds.foldl (fun acc pkd =>
    let fs := ensureDict pkd
    let code := jsonOr (dictGet fs "kodDzial") (dictGet fs "kod")
    if code.truthy then
      (acc.1 ++ [code], if acc.2.truthy then acc.2 else code)
    else acc) ([], .null)

/-- The representative-extraction loop of `normalize_krs_response`:
display name joins given names and surname; empty names are dropped. -/
def krsRepsFold (osoby : List Json) : List KrsRepresentative :=
  osoby.foldl (fun acc osoba =>
    let fs := ensureDict osoba
    if fs.isEmpty then acc
    else
      let ident := ensureDict (dictGetD fs "identyfikator" (.obj []))
      let imiona := pyOrStr (ensureStr (dictGet fs "imiona")) ""
      let nazwisko := pyOrStr (ensureStr (dictGet fs "nazwisko")) ""
      let rep : KrsRepresentative :=
        { name := pyStrip (imiona ++ " " ++ nazwisko)
          function := ensureStr (dictGet fs "funkcjaWOrganie")
          pesel := if !ident.isEmpty then ensureStr (dictGet ident "pesel") else none }
      if rep.name != "" then acc ++ [rep] else acc) []

/-- Embedding of `normalize_krs_response` (krs_client.py).  The only
possible raise point is the very first attribute access on a non-dict
payload; every nested access goes through `_ensure_dict`/`_ensure_str`. -/
def normalize_krs_response (data : Json) : Except PyErr NormalizedKRSProfile := do
  let odpis := ensureDict (← pyGetD data "odpis" data)
  let dane := ensureDict (dictGetD odpis "dane" (.obj odpis))
  let naglowek := ensureDict (jsonOr (dictGet odpis "naglowekP")
    (jsonOr (dictGet odpis "naglowekA") (.obj [])))
  let krs_number := ensureStr (dictGet naglowek "numerKRS")
  let dzial1 := ensureDict (dictGetD dane "dzial1" (.obj []))
  let dane_podmiotu := ensureDict (dictGetD dzial1 "danePodmiotu" (.obj []))
  let np := extractKrsIdentifiers (dictGetD dane_podmiotu "identyfikatory" (.arr []))
  let siedziba := ensureDict (dictGetD dzial1 "siedzibaIAdres" (.obj []))
  let adres_siedziby := ensureDict (dictGetD siedziba "adres" (.obj []))
  let dzial3 := ensureDict (dictGetD dane "dzial3" (.obj []))
  let przedmiot := ensureDict (dictGetD dzial3 "przedmiotDzialalnosci" (.obj []))
  let pkd_list := coerceToList (dictGetD przedmiot "przedmiotPrzewazajacejDzialalnosci" (.arr []))
  let pk := krsPkdFold pkd_list
  let dzial2 := ensureDict (dictGetD dane "dzial2" (.obj []))
  let reprezentacja := ensureDict (dictGetD dzial2 "reprezentacja" (.obj []))
  let sklad := coerceToList (dictGetD reprezentacja "skladOrganu" (.arr []))
  let representatives := krsRepsFold sklad
  let email := if !siedziba.isEmpty then
    ensureStr (jsonOr (dictGet siedziba "adresEmail") (dictGet siedziba "email")) else none
  let website := if !siedziba.isEmpty then
    ensureStr (jsonOr (dictGet siedziba "adresStronyInternetowej") (dictGet siedziba "www")) else none
  let phone := if !siedziba.isEmpty then ensureStr (dictGet siedziba "telefon") else none
  let kapital := ensureDict (dictGetD dzial1 "kapital" (.obj []))
  let share_capital := ensureStr (dictGet kapital "wysokoscKapitaluZakladowego")
  .ok { krs := krs_number, nip := np.1, regon := np.2
        official_name := ensureStr (dictGet dane_podmiotu "nazwa")
        short_name := ensureStr (dictGet dane_podmiotu "nazwaSkrocona")
        legal_form := ensureStr (dictGet dane_podmiotu "formaPrawna")
        legal_form_code := ensureStr (dictGet dane_podmiotu "kodFormyPrawnej")
        registry_status := ensureStr (dictGet dane_podmiotu "status")
        registration_date := parse_date (ensureStr (dictGet dane_podmiotu "dataRejestracjiWKRS"))
        seat_address := extract_address (.obj adres_siedziby)
        correspondence_address := none
        email := email, website := website, phone := phone
        share_capital := share_capital
        pkd_main := ensureStr pk.2
        pkd_codes := pk.1.filterMap (fun c =>
          match ensureStr c with
          | some s => if s != "" then some s else none
          | none => none)
        representatives := representatives
        raw_payload := data }

/-- A CEIDG address as `_extract_ceidg_address` actually builds it: the
field values come straight from the raw payload (the dataclass's type
annotations are not enforced at runtime). -/
structure CeidgRawAddress where
  address_type : String := "MAIN"
  country : Json := .str "PL"
  voivodeship : Json := .null
  county : Json := .null
  gmina : Json := .null
  city : Json := .null
  postal_code : Json := .null
  post_office : Json := .null
  street : Json := .null
  building_no : Json := .null
  unit_no : Json := .null
deriving Repr

/-- Embedding of `_extract_ceidg_address` (ceidg_client.py): unlike the
KRS extractor it calls `.get` directly on the raw value, so a truthy
non-dict raises `AttributeError`. -/
def extract_ceidg_address (addr_data : Json) : Except PyErr (Option CeidgRawAddress) :=
  if !addr_data.truthy then .ok none
  else do
    let kraj ← pyGetD addr_data "kraj" (.str "PL")
    let woj ← pyGet addr_data "wojewodztwo"
    let pow ← pyGet addr_data "powiat"
    let gmi ← pyGet addr_data "gmina"
    let mia ← pyGet addr_data "miejscowosc"
    let kod ← pyGet addr_data "kodPocztowy"
    let pocz ← pyGet addr_data "poczta"
    let uli ← pyGet addr_data "ulica"
    let bud ← pyOrE (← pyGet addr_data "budynek") (pyGet addr_data "nrNieruchomosci")
    let lok ← pyOrE (← pyGet addr_data "lokal") (pyGet addr_data "nrLokalu")
    .ok (some { address_type := "MAIN", country := jsonOr kraj (.str "PL")
                voivodeship := woj, county := pow, gmina := gmi, city := mia
                postal_code := kod, post_office := pocz, street := uli
                building_no := bud, unit_no := lok })

/-- A CEIDG profile as `normalize_ceidg_response` actually builds it, with
raw payload values where the source assigns them unconverted. -/
structure CeidgRawProfile where
  ceidg_id : Json := .null
  nip : Json := .null
  regon : Json := .null
  first_name : Json := .null
  last_name : Json := .null
  business_name : Json := .null
  status : Option String := none
  start_date : Option PyDate := none
  end_date : Option PyDate := none
  suspension_date : Option PyDate := none
  resume_date : Option PyDate := none
  main_address : Option CeidgRawAddress := none
  correspondence_address : Option CeidgRawAddress := none
  business_addresses : List CeidgRawAddress := []
  email : Json := .null
  website : Json := .null
  phone : Json := .null
  pkd_main : Json := .null
  pkd_codes : List Json := []
  raw_payload : Json := .null
deriving Repr

/-- Python iteration over a value (`for x in v`): lists yield elements,
dicts yield keys, strings yield 1-character strings; anything else
raises `TypeError`. -/
def pyIter : Json → Except PyErr (List Json)
  | .arr xs => .ok xs
  | .obj fs => .ok (fs.map (fun kv => .str kv.1))
  | .str s => .ok (s.toList.map (fun c => .str (String.singleton c)))
  | _ => .error .typeError

/-- The PKD loop of `normalize_ceidg_response`: dict entries contribute a
truthy `kod` (main when flagged `przewazajace` or first), plain strings
are taken as codes directly. -/
def ceidgPkdFold (items : List Json) : List Json × Json :=
  items.foldl (fun acc pkd =>
    match pkd with
    | .obj fs =>
      let code := dictGet fs "kod"
      if code.truthy then
        (acc.1 ++ [code],
         if (dictGet fs "przewazajace").truthy || !acc.2.truthy then code else acc.2)
      else acc
    | .str s =>
      (acc.1 ++ [Json.str s], if acc.2.truthy then acc.2 else .str s)
    | _ => acc) ([], .null)

/-- Embedding of `normalize_ceidg_response` (ceidg_client.py), statement
by statement in source execution order, with every raise point kept
(`.get` on raw sub-structures, `.upper()` on a truthy non-string status,
slicing a truthy non-string date, iterating a non-iterable `pkd`). -/
def normalize_ceidg_response (data : Json) : Except PyErr CeidgRawProfile := do
  let fs ← match data with
    | .obj f => Except.ok f
    | _ => Except.error PyErr.attributeError
  let wlasciciel := dictGetD fs "wlasciciel" (.obj [])
  let firma := dictGetD fs "firma" (dictGetD fs "nazwa" (.str ""))
  let adres_glowny := jsonOr (dictGet fs "adresDzialalnosci")
    (dictGetD fs "adresGlownegoMiejscaWykonywaniaDzialalnosci" (.obj []))
  let adres_koresp := dictGetD fs "adresDoKorespondencji" (.obj [])
  let dodatkowe := dictGetD fs "dodatkoweMiejscaWykonywaniaDzialalnosci" (.arr [])
  let business_addresses ←
    match dodatkowe with
    | .arr addrs =>
      addrs.foldlM (fun acc addr =>
        if addr.truthy then do
          let na ← extract_ceidg_address addr
          match na with
          | some a => pure (acc ++ [{ a with address_type := "BUSINESS" }])
          | none => pure acc
        else pure acc) ([] : List CeidgRawAddress)
    | _ => pure []
  let pkd_raw := dictGetD fs "pkd" (.arr [])
  let pkd_data := match pkd_raw with
    | .obj f => Json.arr [Json.obj f]
    | v => v
  let pkd_items ← pyIter pkd_data
  let pk := ceidgPkdFold pkd_items
  let kontakt := dictGetD fs "kontakt" (.obj [])
  let email := jsonOr (← pyGet kontakt "email") (dictGet fs "email")
  let website := jsonOr (← pyGet kontakt "stronaWww")
    (jsonOr (dictGet fs "www") (dictGet fs "stronaInternetowa"))
  let phone := jsonOr (← pyGet kontakt "telefon") (dictGet fs "telefon")
  let status_raw := dictGetD fs "status" (.str "")
  let status ←
    if status_raw.truthy then
      match status_raw with
      | .str s => pure (some (pyUpper s))
      | _ => Except.error PyErr.attributeError
    else pure (none : Option String)
  let corr_addr ←
    if adres_koresp.truthy then do
      let a ← extract_ceidg_address adres_koresp
      pure (a.map (fun x => { x with address_type := "CORRESPONDENCE" }))
    else pure (none : Option CeidgRawAddress)
  let nip ← pyOrE (dictGet fs "nip") (pyGet wlasciciel "nip")
  let first_name ← pyOrE (← pyGet wlasciciel "imie") (.ok (dictGet fs "imie"))
  let last_name ← pyOrE (← pyGet wlasciciel "nazwisko") (.ok (dictGet fs "nazwisko"))
  let start_date ← parse_date_ceidg (dictGet fs "dataRozpoczeciaDzialalnosci")
  let end_date ← parse_date_ceidg (dictGet fs "dataZakonczeniaDzialalnosci")
  let suspension_date ← parse_date_ceidg (dictGet fs "dataZawieszeniaDzialalnosci")
  let resume_date ← parse_date_ceidg (dictGet fs "dataWznowieniaDzialalnosci")
  let main_address ← extract_ceidg_address adres_glowny
  .ok { ceidg_id := jsonOr (dictGet fs "id") (dictGet fs "identyfikatorWpisu")
        nip := nip, regon := dictGet fs "regon"
        first_name := first_name, last_name := last_name
        business_name := firma, status := status
        start_date := start_date, end_date := end_date
        suspension_date := suspension_date, resume_date := resume_date
        main_address := main_address, correspondence_address := corr_addr
        business_addresses := business_addresses
        email := email, website := website, phone := phone
        pkd_main := pk.2, pkd_codes := pk.1
        raw_payload := data }

/-! ## Proposal generation (proposals.py, models.py)

The generator's inputs are the dataclass-typed canonical profile and the
current entity state read from the database: a mapping of field names to
nullable text columns plus ordered lists of identifier, contact and
address rows (each row itself a mapping of column names to nullable
text). -/

/-- A database row: column name to nullable text value. -/
abbrev Row := List (String × Option String)

/-- `row.get(key)`: absent key and NULL value both give Python `None`. -/
def rowGet (row : Row) (k : String) : Option String :=
  ((row.find? (fun kv => kv.1 == k)).map (·.2)).getD none

/-- The current entity state passed to the proposal generator. -/
structure Entity where
  fields : Row := []
  identifiers : List Row := []
  contacts : List Row := []
  addresses : List Row := []
deriving Repr

/-- `entity.get(key)` for a scalar entity field. -/
def Entity.get (e : Entity) (k : String) : Option String :=
  rowGet e.fields k

/-- `entity.get(key, default)` for a scalar entity field: the default is
used only when the key is absent, not when its value is NULL. -/
def Entity.getD (e : Entity) (k : String) (d : Option String) : Option String :=
  ((e.fields.find? (fun kv => kv.1 == k)).map (·.2)).getD d

/-- Embedding of the `ProposalAction` enum (models.py). -/
inductive ProposalAction where
  | ADD : ProposalAction
  | UPDATE : ProposalAction
  | SKIP : ProposalAction
deriving Repr, DecidableEq

/-- Embedding of the `IdentifierProposal` dataclass (models.py). -/
structure IdentifierProposal where
  identifier_type : String
  identifier_value : String
  registry_name : Option String := none
  action : ProposalAction := .ADD
  reason : String := ""
  collision_entity_id : Option String := none
deriving Repr, DecidableEq

/-- Embedding of the `ContactProposal` dataclass (models.py). -/
structure ContactProposal where
  contact_type : String
  contact_value : String
  label : Option String := none
  action : ProposalAction := .ADD
  reason : String := ""
deriving Repr, DecidableEq

/-- Embedding of the `AddressProposal` dataclass (models.py). -/
structure AddressProposal where
  address : NormalizedAddress
  action : ProposalAction := .ADD
  existing_address_id : Option String := none
  reason : String := ""
deriving Repr, DecidableEq

/-- Embedding of `AddressProposal.get_changes_summary` (models.py):
fields of the proposed address whose truthy new value differs from the
existing row's value, in `to_dict` key order. -/
def AddressProposal.get_changes_summary (ap : AddressProposal)
    (existing : Option Row) : List String :=
  match existing with
  | none => ["New address"]
  | some ex =>
    if ex.isEmpty then ["New address"]
    else
      ap.address.to_dict.foldl (fun changes kv =>
        let old_val := rowGet ex kv.1
        if truthyS kv.2 && kv.2 != old_val then
          changes ++ [kv.1 ++ ": " ++ (if truthyS old_val then pyStrS old_val else "(empty)")
            ++ " → " ++ pyStrS kv.2]
        else changes) []

/-- Embedding of the `EnrichmentProposal` dataclass (models.py); the two
update maps are insertion-ordered dicts. -/
structure EnrichmentProposal where
  entity_id : String
  source_system : String
  external_id : String
  core_updates : List (String × String) := []
  type_specific_updates : List (String × String) := []
  identifiers_to_add : List IdentifierProposal := []
  contacts_to_add : List ContactProposal := []
  address_proposals : List AddressProposal := []
  warnings : List String := []
  info_messages : List String := []
  snapshot_id : Option String := none
deriving Repr, DecidableEq

/-- Python dict assignment `m[k] = v` on an insertion-ordered dict. -/
def dictSet (m : List (String × String)) (k v : String) : List (String × String) :=
  if (m.find? (fun kv => kv.1 == k)).isSome then
    m.map (fun kv => if kv.1 == k then (k, v) else kv)
  else m ++ [(k, v)]

/-- Embedding of `EnrichmentProposal.has_any_proposals` (models.py). -/
def EnrichmentProposal.has_any_proposals (p : EnrichmentProposal) : Bool :=
  !p.core_updates.isEmpty || !p.type_specific_updates.isEmpty ||
  !p.identifiers_to_add.isEmpty || !p.contacts_to_add.isEmpty ||
  !p.address_proposals.isEmpty

/-- Identifier normalization used throughout `proposals.py`:
`value.strip().replace("-", "").replace(" ", "")`. -/
def normIdent (s : String) : String :=
  removeChar (removeChar (pyStrip s) (Char.ofNat 45)) ' '

/-- Embedding of `_get_existing_identifier_values` (proposals.py): the
normalized values of the entity's identifiers of the given kind (a set in
the source; only membership is ever used). -/
def get_existing_identifier_values (e : Entity) (identifier_type : String) : List String :=
  e.identifiers.foldl (fun values ident =>
    if rowGet ident "identifier_type" == some identifier_type then
      match rowGet ident "identifier_value" with
      | some v => if v != "" then values ++ [normIdent v] else values
      | none => values
    else values) []

/-- Embedding of `_get_existing_contact_values` (proposals.py). -/
def get_existing_contact_values (e : Entity) (contact_type : String) : List String :=
  e.contacts.foldl (fun values contact =>
    if rowGet contact "contact_type" == some contact_type then
      match rowGet contact "contact_value" with
      | some v => if v != "" then values ++ [pyLower (pyStrip v)] else values
      | none => values
    else values) []

/-- Embedding of `_get_existing_address_by_type` (proposals.py). -/
def get_existing_address_by_type (e : Entity) (address_type : String) : Option Row :=
  e.addresses.find? (fun addr => rowGet addr "address_type" == some address_type)

/-- The cross-entity identifier index:
`{identifier_type: {normalized_value: entity_id}}`. -/
abbrev AllIdentifiers := List (String × List (String × String))

/-- The cross-entity collision check of `_propose_identifier`:
`all_existing[identifier_type].get(normalized)` when the index is truthy
and holds the kind. -/
def collisionLookup (all_existing : Option AllIdentifiers)
    (identifier_type normalized : String) : Option String :=
  match all_existing with
  | some m =>
    if !m.isEmpty && (lookupAssoc m identifier_type).isSome then
      (lookupAssoc m identifier_type).bind (fun inner => lookupAssoc inner normalized)
    else none
  | none => none

/-- Embedding of `_propose_identifier` (proposals.py). -/
def propose_identifier (proposal : EnrichmentProposal) (entity : Entity)
    (identifier_type : String) (value : Option String)
    (all_existing : Option AllIdentifiers) : EnrichmentProposal :=
  if !truthyS value then proposal
  else
    let normalized := normIdent (value.getD "")
    let existing := get_existing_identifier_values entity identifier_type
    if normalized ∈ existing then
      { proposal with info_messages := proposal.info_messages ++
          [identifier_type ++ " " ++ normalized ++ " already exists on entity"] }
    else
      let collision_id : Option String :=
        collisionLookup all_existing identifier_type normalized
      let ident_proposal : IdentifierProposal :=
        { identifier_type := identifier_type
          identifier_value := normalized
          action := if collision_id.isNone then .ADD else .SKIP
          reason := match collision_id with
            | none => "From registry"
            | some cid => "Collision with entity " ++ cid
          collision_entity_id := collision_id }
      let proposal := match collision_id with
        | some cid =>
          { proposal with warnings := proposal.warnings ++
              [identifier_type ++ " " ++ normalized ++
               " already exists on another entity (" ++ cid ++ ")"] }
        | none => proposal
      { proposal with identifiers_to_add := proposal.identifiers_to_add ++ [ident_proposal] }

/-- Embedding of `_propose_contact` (proposals.py). -/
def propose_contact (proposal : EnrichmentProposal) (entity : Entity)
    (contact_type : String) (value : Option String)
    (label : Option String) : EnrichmentProposal :=
  if !truthyS value then proposal
  else
    let normalized := pyStrip (value.getD "")
    let existing := get_existing_contact_values entity contact_type
    if pyLower normalized ∈ existing then
      { proposal with info_messages := proposal.info_messages ++
          [contact_type ++ " " ++ normalized ++ " already exists on entity"] }
    else
      { proposal with contacts_to_add := proposal.contacts_to_add ++
          [{ contact_type := contact_type, contact_value := normalized
             label := some (pyOrStr label "From registry")
             action := .ADD, reason := "From registry" }] }

/-- Embedding of `_propose_address` (proposals.py). -/
def propose_address (proposal : EnrichmentProposal) (entity : Entity)
    (address : Option NormalizedAddress) : EnrichmentProposal :=
  match address with
  | none => proposal
  | some addr =>
    match get_existing_address_by_type entity addr.address_type with
    | none =>
      { proposal with address_proposals := proposal.address_proposals ++
          [{ address := addr, action := .ADD
             reason := "No " ++ addr.address_type ++ " address exists" }] }
    | some existing =>
      let addr_proposal : AddressProposal :=
        { address := addr, action := .UPDATE
          existing_address_id := some (pyStrS (rowGet existing "id"))
          reason := "Update " ++ addr.address_type ++ " address from registry" }
      let changes := addr_proposal.get_changes_summary (some existing)
      if !changes.isEmpty && changes != ["New address"] then
        { proposal with address_proposals := proposal.address_proposals ++ [addr_proposal] }
      else
        { proposal with info_messages := proposal.info_messages ++
            [addr.address_type ++ " address matches registry data"] }

/-- Embedding of `generate_krs_proposal` (proposals.py).  The source
mutates `profile.seat_address.address_type` and
`profile.correspondence_address.address_type` in place; the mutated
profile is returned as the second component. -/
def generate_krs_proposal (entity : Entity) (profile : NormalizedKRSProfile)
    (all_identifiers : Option AllIdentifiers) :
    EnrichmentProposal × NormalizedKRSProfile :=
  let entity_id := pyStrS (entity.getD "id" (some ""))
  let proposal : EnrichmentProposal :=
    { entity_id := entity_id, source_system := "KRS"
      external_id := pyOrStr profile.krs "" }
  let proposal := propose_identifier proposal entity "KRS" profile.krs all_identifiers
  let proposal := propose_identifier proposal entity "NIP" profile.nip all_identifiers
  let proposal := propose_identifier proposal entity "REGON" profile.regon all_identifiers
  let proposal :=
    if entity.get "entity_type" == some "LEGAL_PERSON" then
      let current_name := entity.getD "registered_name" (some "")
      let proposal :=
        if truthyS profile.official_name && !truthyS current_name then
          { proposal with type_specific_updates :=
              (dictSet proposal.type_specific_updates "registered_name"
                (profile.official_name.getD "")) }
        else if truthyS profile.official_name && current_name != profile.official_name then
          { proposal with warnings := proposal.warnings ++
              ["Registry name differs: '" ++ pyStrS profile.official_name ++
               "' vs current '" ++ pyStrS current_name ++ "'"] }
        else proposal
      let proposal :=
        if truthyS profile.short_name && !truthyS (entity.get "short_name") then
          { proposal with type_specific_updates :=
              (dictSet proposal.type_specific_updates "short_name"
                (profile.short_name.getD "")) }
        else proposal
      if truthyS profile.legal_form && !truthyS (entity.get "legal_form_suffix") then
        { proposal with type_specific_updates :=
            (dictSet proposal.type_specific_updates "legal_form_suffix"
              (profile.legal_form.getD "")) }
      else proposal
    else proposal
  let current_label := entity.getD "canonical_label" (some "")
  let proposal :=
    if truthyS profile.official_name && !truthyS current_label then
      { proposal with core_updates :=
          (dictSet proposal.core_updates "canonical_label" (profile.official_name.getD "")) }
    else proposal
  let proposal := propose_contact proposal entity "EMAIL" profile.email (some "KRS")
  let proposal := propose_contact proposal entity "WEBSITE" profile.website (some "KRS")
  let proposal := propose_contact proposal entity "PHONE" profile.phone (some "KRS")
  let profile :=
    match profile.seat_address with
    | some a => { profile with seat_address := some { a with address_type := "MAIN" } }
    | none => profile
  let proposal :=
    match profile.seat_address with
    | some _ => propose_address proposal entity profile.seat_address
    | none => proposal
  let profile :=
    match profile.correspondence_address with
    | some a => { profile with correspondence_address :=
        (some { a with address_type := "CORRESPONDENCE" }) }
    | none => profile
  let proposal :=
    match profile.correspondence_address with
    | some _ => propose_address proposal entity profile.correspondence_address
    | none => proposal
  (proposal, profile)

/-- The dataclass-typed CEIDG profile as the proposal generator consumes
it (models.py annotations). -/
structure NormalizedCEIDGProfile where
  ceidg_id : Option String := none
  nip : Option String := none
  regon : Option String := none
  first_name : Option String := none
  last_name : Option String := none
  business_name : Option String := none
  status : Option String := none
  start_date : Option PyDate := none
  end_date : Option PyDate := none
  suspension_date : Option PyDate := none
  resume_date : Option PyDate := none
  main_address : Option NormalizedAddress := none
  correspondence_address : Option NormalizedAddress := none
  business_addresses : List NormalizedAddress := []
  email : Option String := none
  website : Option String := none
  phone : Option String := none
  pkd_main : Option String := none
  pkd_codes : List String := []
deriving Repr, DecidableEq

/-- Embedding of `generate_ceidg_proposal` (proposals.py); as with KRS,
the in-place retagging of `profile.main_address.address_type` is
returned as the second component. -/
def generate_ceidg_proposal (entity : Entity) (profile : NormalizedCEIDGProfile)
    (all_identifiers : Option AllIdentifiers) :
    EnrichmentProposal × NormalizedCEIDGProfile :=
  let entity_id := pyStrS (entity.getD "id" (some ""))
  let proposal : EnrichmentProposal :=
    { entity_id := entity_id, source_system := "CEIDG"
      external_id := pyOrStr profile.nip (pyOrStr profile.regon "") }
  let proposal := propose_identifier proposal entity "NIP" profile.nip all_identifiers
  let proposal := propose_identifier proposal entity "REGON" profile.regon all_identifiers
  let entity_type := entity.get "entity_type"
  let proposal :=
    if entity_type == some "PHYSICAL_PERSON" then
      let proposal :=
        if truthyS profile.first_name && !truthyS (entity.get "first_name") then
          { proposal with type_specific_updates :=
              (dictSet proposal.type_specific_updates "first_name"
                (profile.first_name.getD "")) }
        else proposal
      let proposal :=
        if truthyS profile.last_name && !truthyS (entity.get "last_name") then
          { proposal with type_specific_updates :=
              (dictSet proposal.type_specific_updates "last_name"
                (profile.last_name.getD "")) }
        else proposal
      let proposal :=
        if truthyS profile.first_name && truthyS (entity.get "first_name") then
          if pyUpper (profile.first_name.getD "") !=
             pyUpper ((entity.getD "first_name" (some "")).getD "") then
            { proposal with warnings := proposal.warnings ++
                ["First name differs: '" ++ pyStrS profile.first_name ++
                 "' vs '" ++ pyStrS (entity.get "first_name") ++ "'"] }
          else proposal
        else proposal
      if truthyS profile.last_name && truthyS (entity.get "last_name") then
        if pyUpper (profile.last_name.getD "") !=
           pyUpper ((entity.getD "last_name" (some "")).getD "") then
          { proposal with warnings := proposal.warnings ++
              ["Last name differs: '" ++ pyStrS profile.last_name ++
               "' vs '" ++ pyStrS (entity.get "last_name") ++ "'"] }
        else proposal
      else proposal
    else if entity_type == some "LEGAL_PERSON" then
      if truthyS profile.business_name && !truthyS (entity.get "registered_name") then
        { proposal with type_specific_updates :=
            (dictSet proposal.type_specific_updates "registered_name"
              (profile.business_name.getD "")) }
      else proposal
    else proposal
  let current_label := entity.getD "canonical_label" (some "")
  let proposal :=
    if !truthyS current_label then
      if entity_type == some "PHYSICAL_PERSON" && truthyS profile.first_name &&
         truthyS profile.last_name then
        { proposal with core_updates :=
            (dictSet proposal.core_updates "canonical_label"
              (profile.first_name.getD "" ++ " " ++ profile.last_name.getD "")) }
      else if truthyS profile.business_name then
        { proposal with core_updates :=
            (dictSet proposal.core_updates "canonical_label" (profile.business_name.getD "")) }
      else proposal
    else proposal
  let proposal := propose_contact proposal entity "EMAIL" profile.email (some "CEIDG")
  let proposal := propose_contact proposal entity "WEBSITE" profile.website (some "CEIDG")
  let proposal := propose_contact proposal entity "PHONE" profile.phone (some "CEIDG")
  let profile :=
    match profile.main_address with
    | some a => { profile with main_address := some { a with address_type := "MAIN" } }
    | none => profile
  let proposal :=
    match profile.main_address with
    | some _ => propose_address proposal entity profile.main_address
    | none => proposal
  let proposal :=
    match profile.correspondence_address with
    | some _ => propose_address proposal entity profile.correspondence_address
    | none => proposal
  let proposal := profile.business_addresses.foldl
    (fun pr biz_addr => propose_address pr entity (some biz_addr)) proposal
  (proposal, profile)

/-! ## Apply engine (commands.py `_apply_enrichment_selections`)

Storage writes are modelled through an oracle `sys : WriteOp → WriteResult`
injected by the caller; the list of attempted writes is returned as an
explicit trace so that theorems can speak about which writes happened. -/

/-- One storage write the apply step can attempt. -/
inductive WriteOp where
  | updateEntity (entity_id : String) (updates : List (String × String))
  | addIdentifier (entity_id identifier_type identifier_value : String)
      (registry_name : Option String)
  | addContact (entity_id contact_type contact_value : String) (label : Option String)
  | addAddress (entity_id : String) (addr : Row)
  | updateAddress (address_id : Option String) (addr : Row)
deriving Repr, DecidableEq

/-- Outcome of one storage write: success, `DuplicateIdentifierError`, or
any other exception (carrying its message). -/
inductive WriteResult where
  | ok : WriteResult
  | duplicateIdentifier (msg : String) : WriteResult
  | failure (msg : String) : WriteResult
deriving Repr, DecidableEq

/-- The per-category applied counts returned by the apply step. -/
structure ApplyCounts where
  core : Nat := 0
  type_specific : Nat := 0
  identifiers : Nat := 0
  contacts : Nat := 0
  addresses : Nat := 0
deriving Repr, DecidableEq

/-- The user selection handed to the apply step (ui.py contract). -/
structure Selections where
  apply_core : Bool := false
  apply_type_specific : Bool := false
  identifiers : List IdentifierProposal := []
  contacts : List ContactProposal := []
  addresses : List AddressProposal := []
deriving Repr, DecidableEq

/-- Embedding of `_apply_enrichment_selections` (commands.py): best-effort
batch apply, one `try/except` per item, errors accumulated as strings. -/
def apply_enrichment_selections (sys : WriteOp → WriteResult) (entity_id : String)
    (proposal : EnrichmentProposal) (selections : Selections) :
    ApplyCounts × List String × List WriteOp :=
  let applied : ApplyCounts := {}
  let errors : List String := []
  let trace : List WriteOp := []
  let (applied, errors, trace) :=
    if selections.apply_core && !proposal.core_updates.isEmpty then
      let op := WriteOp.updateEntity entity_id proposal.core_updates
      match sys op with
      | .ok => ({ applied with core := proposal.core_updates.length }, errors, trace ++ [op])
      | .duplicateIdentifier m =>
        (applied, errors ++ ["Core update failed: " ++ m], trace ++ [op])
      | .failure m => (applied, errors ++ ["Core update failed: " ++ m], trace ++ [op])
    else (applied, errors, trace)
  let (applied, errors, trace) :=
    if selections.apply_type_specific && !proposal.type_specific_updates.isEmpty then
      let op := WriteOp.updateEntity entity_id proposal.type_specific_updates
      match sys op with
      | .ok => ({ applied with type_specific := proposal.type_specific_updates.length },
                errors, trace ++ [op])
      | .duplicateIdentifier m =>
        (applied, errors ++ ["Type-specific update failed: " ++ m], trace ++ [op])
      | .failure m =>
        (applied, errors ++ ["Type-specific update failed: " ++ m], trace ++ [op])
    else (applied, errors, trace)
  let (applied, errors, trace) :=
    selections.identifiers.foldl
      (fun (st : ApplyCounts × List String × List WriteOp) ip =>
        let (applied, errors, trace) := st
        if ip.action == ProposalAction.ADD then
          let op := WriteOp.addIdentifier entity_id ip.identifier_type
            ip.identifier_value ip.registry_name
          match sys op with
          | .ok => ({ applied with identifiers := applied.identifiers + 1 },
                    errors, trace ++ [op])
          | .duplicateIdentifier _ =>
            (applied,
             errors ++ ["Duplicate " ++ ip.identifier_type ++ ": " ++ ip.identifier_value],
             trace ++ [op])
          | .failure m =>
            (applied, errors ++ ["Identifier add failed: " ++ m], trace ++ [op])
        else st) (applied, errors, trace)
  let (applied, errors, trace) :=
    selections.contacts.foldl
      (fun (st : ApplyCounts × List String × List WriteOp) cp =>
        let (applied, errors, trace) := st
        let op := WriteOp.addContact entity_id cp.contact_type cp.contact_value cp.label
        match sys op with
        | .ok => ({ applied with contacts := applied.contacts + 1 }, errors, trace ++ [op])
        | .duplicateIdentifier m =>
          (applied, errors ++ ["Contact add failed: " ++ m], trace ++ [op])
        | .failure m =>
          (applied, errors ++ ["Contact add failed: " ++ m], trace ++ [op]))
      (applied, errors, trace)
  let (applied, errors, trace) :=
    selections.addresses.foldl
      (fun (st : ApplyCounts × List String × List WriteOp) ap =>
        let (applied, errors, trace) := st
        if ap.action == ProposalAction.ADD then
          let op := WriteOp.addAddress entity_id ap.address.to_dict
          match sys op with
          | .ok => ({ applied with addresses := applied.addresses + 1 },
                    errors, trace ++ [op])
          | .duplicateIdentifier m =>
            (applied, errors ++ ["Address operation failed: " ++ m], trace ++ [op])
          | .failure m =>
            (applied, errors ++ ["Address operation failed: " ++ m], trace ++ [op])
        else if ap.action == ProposalAction.UPDATE then
          let op := WriteOp.updateAddress ap.existing_address_id ap.address.to_dict
          match sys op with
          | .ok => ({ applied with addresses := applied.addresses + 1 },
                    errors, trace ++ [op])
          | .duplicateIdentifier m =>
            (applied, errors ++ ["Address operation failed: " ++ m], trace ++ [op])
          | .failure m =>
            (applied, errors ++ ["Address operation failed: " ++ m], trace ++ [op])
        else
          ({ applied with addresses := applied.addresses + 1 }, errors, trace))
      (applied, errors, trace)
  (applied, errors, trace)

/-! ## Interactive selection (ui.py `prompt_apply_proposal`)

Console answers are injected as a stream `ans : Nat → String`; the prompt
consumes answers in order, threading the next answer index. -/

/-- `response.strip().lower()` of the n-th console answer. -/
def answerAt (ans : Nat → String) (i : Nat) : String :=
  pyLower (pyStrip (ans i))

/-- `response in ("y", "yes")`. -/
def isYes (r : String) : Bool := r == "y" || r == "yes"

/-- Embedding of `prompt_apply_proposal` (ui.py): interactive selection of
which proposal items to apply.  SKIP-tagged identifier proposals are
skipped without being offered; address UPDATEs require explicit
confirmation even in apply-all mode. -/
def prompt_apply_proposal (proposal : EnrichmentProposal) (ans : Nat → String) : Selections :=
  let result : Selections := {}
  if !proposal.has_any_proposals then result
  else
    let response := answerAt ans 0
    if response == "q" then result
    else
      let apply_all := response == "y" || response == "yes" ||
        response == "a" || response == "all"
      let st : Selections × Nat := (result, 1)
      let st :=
        if !proposal.core_updates.isEmpty then
          if apply_all then ({ st.1 with apply_core := true }, st.2)
          else ({ st.1 with apply_core := isYes (answerAt ans st.2) }, st.2 + 1)
        else st
      let st :=
        if !proposal.type_specific_updates.isEmpty then
          if apply_all then ({ st.1 with apply_type_specific := true }, st.2)
          else ({ st.1 with apply_type_specific := isYes (answerAt ans st.2) }, st.2 + 1)
        else st
      let st := proposal.identifiers_to_add.foldl
        (fun (st : Selections × Nat) ident =>
          if ident.action == ProposalAction.SKIP then st
          else if apply_all then
            ({ st.1 with identifiers := st.1.identifiers ++ [ident] }, st.2)
          else if isYes (answerAt ans st.2) then
            ({ st.1 with identifiers := st.1.identifiers ++ [ident] }, st.2 + 1)
          else (st.1, st.2 + 1)) st
      let st := proposal.contacts_to_add.foldl
        (fun (st : Selections × Nat) contact =>
          if apply_all then
            ({ st.1 with contacts := st.1.contacts ++ [contact] }, st.2)
          else if isYes (answerAt ans st.2) then
            ({ st.1 with contacts := st.1.contacts ++ [contact] }, st.2 + 1)
          else (st.1, st.2 + 1)) st
      let st := proposal.address_proposals.foldl
        (fun (st : Selections × Nat) addr_prop =>
          if addr_prop.action == ProposalAction.ADD then
            if apply_all then
              ({ st.1 with addresses := st.1.addresses ++ [addr_prop] }, st.2)
            else if isYes (answerAt ans st.2) then
              ({ st.1 with addresses := st.1.addresses ++ [addr_prop] }, st.2 + 1)
            else (st.1, st.2 + 1)
          else
            if isYes (answerAt ans st.2) then
              ({ st.1 with addresses := st.1.addresses ++ [addr_prop] }, st.2 + 1)
            else (st.1, st.2 + 1)) st
      st.1

/-- Keep an optional string only when it is truthy. -/
def truthyFilter (v : Option String) : Option String :=
  match v with
  | some s => if s != "" then some s else none
  | none => none

/-- The first truthy extraction along a scan of the entries. -/
def firstTruthy (f : Json → Option String) (l : List Json) : Option String :=
  l.findSome? (fun item => truthyFilter (f item))

/-- A minimal KRS payload carrying a given historical identifier list at
the path `odpis.dane.dzial1.danePodmiotu.identyfikatory`. -/
def mkKrsIdentPayload (l : List Json) : Json :=
  .obj [("odpis", .obj [("dane", .obj [("dzial1",
    .obj [("danePodmiotu", .obj [("identyfikatory", .arr l)])])])])]

/-- The warnings, info messages and identifier proposals appended by one
`_propose_identifier` call (its decision table, as appended deltas). -/
def piDelta (e : Entity) (t : String) (v : Option String)
    (idx : Option AllIdentifiers) :
    List String × List String × List IdentifierProposal :=
  if !truthyS v then ([], [], [])
  else
    let normalized := normIdent (v.getD "")
    let existing := get_existing_identifier_values e t
    if normalized ∈ existing then
      ([], [t ++ " " ++ normalized ++ " already exists on entity"], [])
    else
      let collision_id := collisionLookup idx t normalized
      let ip : IdentifierProposal :=
        { identifier_type := t
          identifier_value := normalized
          action := if collision_id.isNone then .ADD else .SKIP
          reason := match collision_id with
            | none => "From registry"
            | some cid => "Collision with entity " ++ cid
          collision_entity_id := collision_id }
      match collision_id with
      | some cid =>
        ([t ++ " " ++ normalized ++ " already exists on another entity (" ++ cid ++ ")"],
         [], [ip])
      | none => ([], [], [ip])

/-- The info messages and contact proposals appended by one
`_propose_contact` call. -/
def pcDelta (e : Entity) (t : String) (v : Option String)
    (label : Option String) : List String × List ContactProposal :=
  if !truthyS v then ([], [])
  else
    let normalized := pyStrip (v.getD "")
    let existing := get_existing_contact_values e t
    if pyLower normalized ∈ existing then
      ([t ++ " " ++ normalized ++ " already exists on entity"], [])
    else
      ([], [{ contact_type := t, contact_value := normalized
              label := some (pyOrStr label "From registry")
              action := .ADD, reason := "From registry" }])

/-- The info messages and address proposals appended by one
`_propose_address` call. -/
def paDelta (e : Entity) (address : Option NormalizedAddress) :
    List String × List AddressProposal :=
  match address with
  | none => ([], [])
  | some addr =>
    match get_existing_address_by_type e addr.address_type with
    | none =>
      ([], [{ address := addr, action := .ADD
              reason := "No " ++ addr.address_type ++ " address exists" }])
    | some existing =>
      let addr_proposal : AddressProposal :=
        { address := addr, action := .UPDATE
          existing_address_id := some (pyStrS (rowGet existing "id"))
          reason := "Update " ++ addr.address_type ++ " address from registry" }
      let changes := addr_proposal.get_changes_summary (some existing)
      if !changes.isEmpty && changes != ["New address"] then ([], [addr_proposal])
      else ([addr.address_type ++ " address matches registry data"], [])

/-- The seat address as the KRS generator retags it in place. -/
def krsSeatTagged (p : NormalizedKRSProfile) : Option NormalizedAddress :=
  p.seat_address.map (fun a => { a with address_type := "MAIN" })

/-- The correspondence address as the KRS generator retags it in place. -/
def krsCorrTagged (p : NormalizedKRSProfile) : Option NormalizedAddress :=
  p.correspondence_address.map (fun a => { a with address_type := "CORRESPONDENCE" })

/-- The type-specific update map built by the KRS generator's
LEGAL_PERSON section. -/
def krsTypeSpecificUpdates (e : Entity) (p : NormalizedKRSProfile) :
    List (String × String) :=
  if e.get "entity_type" == some "LEGAL_PERSON" then
    let current_name := e.getD "registered_name" (some "")
    let m := if truthyS p.official_name && !truthyS current_name then
        dictSet [] "registered_name" (p.official_name.getD "") else []
    let m := if truthyS p.short_name && !truthyS (e.get "short_name") then
        dictSet m "short_name" (p.short_name.getD "") else m
    if truthyS p.legal_form && !truthyS (e.get "legal_form_suffix") then
      dictSet m "legal_form_suffix" (p.legal_form.getD "") else m
  else []

/-- The warnings emitted by the KRS generator's type-specific section:
only a registered-name difference warns. -/
def krsTypeSpecificWarnings (e : Entity) (p : NormalizedKRSProfile) : List String :=
  if e.get "entity_type" == some "LEGAL_PERSON" then
    let current_name := e.getD "registered_name" (some "")
    if truthyS p.official_name && !truthyS current_name then []
    else if truthyS p.official_name && current_name != p.official_name then
      ["Registry name differs: '" ++ pyStrS p.official_name ++
       "' vs current '" ++ pyStrS current_name ++ "'"]
    else []
  else []

/-- The core update map built by the KRS generator. -/
def krsCoreUpdates (e : Entity) (p : NormalizedKRSProfile) : List (String × String) :=
  if truthyS p.official_name && !truthyS (e.getD "canonical_label" (some "")) then
    dictSet [] "canonical_label" (p.official_name.getD "")
  else []

/-- Proof-layer staging of `generate_krs_proposal`: the identifier
section applied to the freshly constructed proposal. -/
def krsStage1 (e : Entity) (p : NormalizedKRSProfile) (idx : Option AllIdentifiers) :
    EnrichmentProposal :=
  propose_identifier (propose_identifier (propose_identifier
    { entity_id := pyStrS (e.getD "id" (some ""))
      source_system := "KRS"
      external_id := pyOrStr p.krs "" }
    e "KRS" p.krs idx) e "NIP" p.nip idx) e "REGON" p.regon idx

/-- Proof-layer staging: the LEGAL_PERSON type-specific section. -/
def krsStage2 (e : Entity) (p : NormalizedKRSProfile) (idx : Option AllIdentifiers) :
    EnrichmentProposal :=
  let proposal := krsStage1 e p idx
  if e.get "entity_type" == some "LEGAL_PERSON" then
    let current_name := e.getD "registered_name" (some "")
    let proposal :=
      if truthyS p.official_name && !truthyS current_name then
        { proposal with type_specific_updates :=
            (dictSet proposal.type_specific_updates "registered_name"
              (p.official_name.getD "")) }
      else if truthyS p.official_name && current_name != p.official_name then
        { proposal with warnings := proposal.warnings ++
            ["Registry name differs: '" ++ pyStrS p.official_name ++
             "' vs current '" ++ pyStrS current_name ++ "'"] }
      else proposal
    let proposal :=
      if truthyS p.short_name && !truthyS (e.get "short_name") then
        { proposal with type_specific_updates :=
            (dictSet proposal.type_specific_updates "short_name"
              (p.short_name.getD "")) }
      else proposal
    if truthyS p.legal_form && !truthyS (e.get "legal_form_suffix") then
      { proposal with type_specific_updates :=
          (dictSet proposal.type_specific_updates "legal_form_suffix"
            (p.legal_form.getD "")) }
    else proposal
  else proposal

/-- Proof-layer staging: the canonical-label core section. -/
def krsStage3 (e : Entity) (p : NormalizedKRSProfile) (idx : Option AllIdentifiers) :
    EnrichmentProposal :=
  let proposal := krsStage2 e p idx
  let current_label := e.getD "canonical_label" (some "")
  if truthyS p.official_name && !truthyS current_label then
    { proposal with core_updates :=
        (dictSet proposal.core_updates "canonical_label" (p.official_name.getD "")) }
  else proposal

/-- Proof-layer staging: the contacts section. -/
def krsStage4 (e : Entity) (p : NormalizedKRSProfile) (idx : Option AllIdentifiers) :
    EnrichmentProposal :=
  propose_contact (propose_contact (propose_contact (krsStage3 e p idx)
    e "EMAIL" p.email (some "KRS")) e "WEBSITE" p.website (some "KRS"))
    e "PHONE" p.phone (some "KRS")

/-- Proof-layer staging: the address section plus profile retagging. -/
def krsStage5 (e : Entity) (p : NormalizedKRSProfile) (idx : Option AllIdentifiers) :
    EnrichmentProposal × NormalizedKRSProfile :=
  let proposal := krsStage4 e p idx
  let profile :=
    match p.seat_address with
    | some a => { p with seat_address := some { a with address_type := "MAIN" } }
    | none => p
  let proposal :=
    match profile.seat_address with
    | some _ => propose_address proposal e profile.seat_address
    | none => proposal
  let profile :=
    match profile.correspondence_address with
    | some a => { profile with correspondence_address :=
        (some { a with address_type := "CORRESPONDENCE" }) }
    | none => profile
  let proposal :=
    match profile.correspondence_address with
    | some _ => propose_address proposal e profile.correspondence_address
    | none => proposal
  (proposal, profile)

/-- The profile after the KRS generator's in-place retagging. -/
def krsTagged (p : NormalizedKRSProfile) : NormalizedKRSProfile :=
  { p with seat_address := krsSeatTagged p
           correspondence_address := krsCorrTagged p }

/-- The main address as the CEIDG generator retags it in place. -/
def ceidgMainTagged (p : NormalizedCEIDGProfile) : Option NormalizedAddress :=
  p.main_address.map (fun a => { a with address_type := "MAIN" })

/-- The profile after the CEIDG generator's in-place retagging. -/
def ceidgTagged (p : NormalizedCEIDGProfile) : NormalizedCEIDGProfile :=
  { p with main_address := ceidgMainTagged p }

/-- The type-specific update map built by the CEIDG generator. -/
def ceidgTypeSpecificUpdates (e : Entity) (p : NormalizedCEIDGProfile) :
    List (String × String) :=
  if e.get "entity_type" == some "PHYSICAL_PERSON" then
    let m := if truthyS p.first_name && !truthyS (e.get "first_name") then
        dictSet [] "first_name" (p.first_name.getD "") else []
    if truthyS p.last_name && !truthyS (e.get "last_name") then
      dictSet m "last_name" (p.last_name.getD "") else m
  else if e.get "entity_type" == some "LEGAL_PERSON" then
    if truthyS p.business_name && !truthyS (e.get "registered_name") then
      dictSet [] "registered_name" (p.business_name.getD "") else []
  else []

/-- The warnings emitted by the CEIDG generator's type-specific section:
first/last name differences, compared case-insensitively. -/
def ceidgTypeSpecificWarnings (e : Entity) (p : NormalizedCEIDGProfile) : List String :=
  if e.get "entity_type" == some "PHYSICAL_PERSON" then
    (if truthyS p.first_name && truthyS (e.get "first_name") then
      if pyUpper (p.first_name.getD "") !=
         pyUpper ((e.getD "first_name" (some "")).getD "") then
        ["First name differs: '" ++ pyStrS p.first_name ++ "' vs '" ++
         pyStrS (e.get "first_name") ++ "'"]
      else []
     else []) ++
    (if truthyS p.last_name && truthyS (e.get "last_name") then
      if pyUpper (p.last_name.getD "") !=
         pyUpper ((e.getD "last_name" (some "")).getD "") then
        ["Last name differs: '" ++ pyStrS p.last_name ++ "' vs '" ++
         pyStrS (e.get "last_name") ++ "'"]
      else []
     else [])
  else []

/-- The core update map built by the CEIDG generator. -/
def ceidgCoreUpdates (e : Entity) (p : NormalizedCEIDGProfile) : List (String × String) :=
  if !truthyS (e.getD "canonical_label" (some "")) then
    if e.get "entity_type" == some "PHYSICAL_PERSON" && truthyS p.first_name &&
       truthyS p.last_name then
      dictSet [] "canonical_label" (p.first_name.getD "" ++ " " ++ p.last_name.getD "")
    else if truthyS p.business_name then
      dictSet [] "canonical_label" (p.business_name.getD "")
    else []
  else []

/-- Proof-layer staging of `generate_ceidg_proposal`: identifiers. -/
def ceidgStage1 (e : Entity) (p : NormalizedCEIDGProfile) (idx : Option AllIdentifiers) :
    EnrichmentProposal :=
  propose_identifier (propose_identifier
    { entity_id := pyStrS (e.getD "id" (some ""))
      source_system := "CEIDG"
      external_id := pyOrStr p.nip (pyOrStr p.regon "") }
    e "NIP" p.nip idx) e "REGON" p.regon idx

/-- Proof-layer staging: the type-specific section. -/
def ceidgStage2 (e : Entity) (p : NormalizedCEIDGProfile) (idx : Option AllIdentifiers) :
    EnrichmentProposal :=
  let proposal := ceidgStage1 e p idx
  let entity_type := e.get "entity_type"
  if entity_type == some "PHYSICAL_PERSON" then
    let proposal :=
      if truthyS p.first_name && !truthyS (e.get "first_name") then
        { proposal with type_specific_updates :=
            (dictSet proposal.type_specific_updates "first_name"
              (p.first_name.getD "")) }
      else proposal
    let proposal :=
      if truthyS p.last_name && !truthyS (e.get "last_name") then
        { proposal with type_specific_updates :=
            (dictSet proposal.type_specific_updates "last_name"
              (p.last_name.getD "")) }
      else proposal
    let proposal :=
      if truthyS p.first_name && truthyS (e.get "first_name") then
        if pyUpper (p.first_name.getD "") !=
           pyUpper ((e.getD "first_name" (some "")).getD "") then
          { proposal with warnings := proposal.warnings ++
              ["First name differs: '" ++ pyStrS p.first_name ++ "' vs '" ++
               pyStrS (e.get "first_name") ++ "'"] }
        else proposal
      else proposal
    if truthyS p.last_name && truthyS (e.get "last_name") then
      if pyUpper (p.last_name.getD "") !=
         pyUpper ((e.getD "last_name" (some "")).getD "") then
        { proposal with warnings := proposal.warnings ++
            ["Last name differs: '" ++ pyStrS p.last_name ++ "' vs '" ++
             pyStrS (e.get "last_name") ++ "'"] }
      else proposal
    else proposal
  else if entity_type == some "LEGAL_PERSON" then
    if truthyS p.business_name && !truthyS (e.get "registered_name") then
      { proposal with type_specific_updates :=
          (dictSet proposal.type_specific_updates "registered_name"
            (p.business_name.getD "")) }
    else proposal
  else proposal

/-- Proof-layer staging: the canonical-label core section. -/
def ceidgStage3 (e : Entity) (p : NormalizedCEIDGProfile) (idx : Option AllIdentifiers) :
    EnrichmentProposal :=
  let proposal := ceidgStage2 e p idx
  let entity_type := e.get "entity_type"
  let current_label := e.getD "canonical_label" (some "")
  if !truthyS current_label then
    if entity_type == some "PHYSICAL_PERSON" && truthyS p.first_name &&
       truthyS p.last_name then
      { proposal with core_updates :=
          (dictSet proposal.core_updates "canonical_label"
            (p.first_name.getD "" ++ " " ++ p.last_name.getD "")) }
    else if truthyS p.business_name then
      { proposal with core_updates :=
          (dictSet proposal.core_updates "canonical_label" (p.business_name.getD "")) }
    else proposal
  else proposal

/-- Proof-layer staging: the contacts section. -/
def ceidgStage4 (e : Entity) (p : NormalizedCEIDGProfile) (idx : Option AllIdentifiers) :
    EnrichmentProposal :=
  propose_contact (propose_contact (propose_contact (ceidgStage3 e p idx)
    e "EMAIL" p.email (some "CEIDG")) e "WEBSITE" p.website (some "CEIDG"))
    e "PHONE" p.phone (some "CEIDG")

/-- Proof-layer staging: the address section plus profile retagging. -/
def ceidgStage5 (e : Entity) (p : NormalizedCEIDGProfile) (idx : Option AllIdentifiers) :
    EnrichmentProposal × NormalizedCEIDGProfile :=
  let proposal := ceidgStage4 e p idx
  let profile :=
    match p.main_address with
    | some a => { p with main_address := some { a with address_type := "MAIN" } }
    | none => p
  let proposal :=
    match profile.main_address with
    | some _ => propose_address proposal e profile.main_address
    | none => proposal
  let proposal :=
    match profile.correspondence_address with
    | some _ => propose_address proposal e profile.correspondence_address
    | none => proposal
  let proposal := profile.business_addresses.foldl
    (fun pr biz_addr => propose_address pr e (some biz_addr)) proposal
  (proposal, profile)

/-- An entity already carrying a non-empty `short_name`, for which the
profile proposes a different one. -/
def shortNameEntity : Entity :=
  { fields := [("id", some "e1"), ("entity_type", some "LEGAL_PERSON"),
               ("registered_name", some ""), ("short_name", some "A"),
               ("canonical_label", some "")] }

def shortNameProfile : NormalizedKRSProfile := { short_name := some "B" }

/-- A LEGAL_PERSON entity with every KRS-written field already non-empty. -/
def krsWitnessEntity : Entity :=
  { fields := [("id", some "e1"), ("entity_type", some "LEGAL_PERSON"),
               ("registered_name", some "OLD"), ("short_name", some "S"),
               ("legal_form_suffix", some "L"), ("canonical_label", some "C")] }

def krsWitnessProfile : NormalizedKRSProfile :=
  { official_name := some "NEW", short_name := some "S2", legal_form := some "L2" }

/-- A PHYSICAL_PERSON entity with every CEIDG-written field already
non-empty. -/
def ceidgWitnessEntity : Entity :=
  { fields := [("id", some "e2"), ("entity_type", some "PHYSICAL_PERSON"),
               ("first_name", some "Adam"), ("last_name", some "Kowalski"),
               ("registered_name", some "X"), ("canonical_label", some "Y")] }

def ceidgWitnessProfile : NormalizedCEIDGProfile :=
  { first_name := some "JAN", last_name := some "NOWAK",
    business_name := some "FIRMA" }

/-- Is this write an identifier insertion? -/
def WriteOp.isIdentWrite : WriteOp → Bool
  | .addIdentifier _ _ _ _ => true
  | _ => false

/-- Is this write a contact insertion? -/
def WriteOp.isContactWrite : WriteOp → Bool
  | .addContact _ _ _ _ => true
  | _ => false

/-- Is this write an address insertion or update? -/
def WriteOp.isAddressWrite : WriteOp → Bool
  | .addAddress _ _ => true
  | .updateAddress _ _ => true
  | _ => false

/-- The core-updates section of the apply step, as a state transformer. -/
def coreStep (sys : WriteOp → WriteResult) (entity_id : String)
    (proposal : EnrichmentProposal) (selections : Selections)
    (st : ApplyCounts × List String × List WriteOp) :
    ApplyCounts × List String × List WriteOp :=
  let (applied, errors, trace) := st
  if selections.apply_core && !proposal.core_updates.isEmpty then
    let op := WriteOp.updateEntity entity_id proposal.core_updates
    match sys op with
    | .ok => ({ applied with core := proposal.core_updates.length }, errors, trace ++ [op])
    | .duplicateIdentifier m =>
      (applied, errors ++ ["Core update failed: " ++ m], trace ++ [op])
    | .failure m => (applied, errors ++ ["Core update failed: " ++ m], trace ++ [op])
  else (applied, errors, trace)

/-- The type-specific-updates section of the apply step. -/
def tsStep (sys : WriteOp → WriteResult) (entity_id : String)
    (proposal : EnrichmentProposal) (selections : Selections)
    (st : ApplyCounts × List String × List WriteOp) :
    ApplyCounts × List String × List WriteOp :=
  let (applied, errors, trace) := st
  if selections.apply_type_specific && !proposal.type_specific_updates.isEmpty then
    let op := WriteOp.updateEntity entity_id proposal.type_specific_updates
    match sys op with
    | .ok => ({ applied with type_specific := proposal.type_specific_updates.length },
              errors, trace ++ [op])
    | .duplicateIdentifier m =>
      (applied, errors ++ ["Type-specific update failed: " ++ m], trace ++ [op])
    | .failure m =>
      (applied, errors ++ ["Type-specific update failed: " ++ m], trace ++ [op])
  else (applied, errors, trace)

/-- One step of the identifier loop of the apply step. -/
def identStep (sys : WriteOp → WriteResult) (entity_id : String)
    (st : ApplyCounts × List String × List WriteOp) (ip : IdentifierProposal) :
    ApplyCounts × List String × List WriteOp :=
  let (applied, errors, trace) := st
  if ip.action == ProposalAction.ADD then
    let op := WriteOp.addIdentifier entity_id ip.identifier_type
      ip.identifier_value ip.registry_name
    match sys op with
    | .ok => ({ applied with identifiers := applied.identifiers + 1 },
              errors, trace ++ [op])
    | .duplicateIdentifier _ =>
      (applied,
       errors ++ ["Duplicate " ++ ip.identifier_type ++ ": " ++ ip.identifier_value],
       trace ++ [op])
    | .failure m =>
      (applied, errors ++ ["Identifier add failed: " ++ m], trace ++ [op])
  else st

/-- One step of the contact loop of the apply step. -/
def contStep (sys : WriteOp → WriteResult) (entity_id : String)
    (st : ApplyCounts × List String × List WriteOp) (cp : ContactProposal) :
    ApplyCounts × List String × List WriteOp :=
  let (applied, errors, trace) := st
  let op := WriteOp.addContact entity_id cp.contact_type cp.contact_value cp.label
  match sys op with
  | .ok => ({ applied with contacts := applied.contacts + 1 }, errors, trace ++ [op])
  | .duplicateIdentifier m =>
    (applied, errors ++ ["Contact add failed: " ++ m], trace ++ [op])
  | .failure m =>
    (applied, errors ++ ["Contact add failed: " ++ m], trace ++ [op])

/-- One step of the address loop of the apply step. -/
def addrStep (sys : WriteOp → WriteResult) (entity_id : String)
    (st : ApplyCounts × List String × List WriteOp) (ap : AddressProposal) :
    ApplyCounts × List String × List WriteOp :=
  let (applied, errors, trace) := st
  if ap.action == ProposalAction.ADD then
    let op := WriteOp.addAddress entity_id ap.address.to_dict
    match sys op with
    | .ok => ({ applied with addresses := applied.addresses + 1 },
              errors, trace ++ [op])
    | .duplicateIdentifier m =>
      (applied, errors ++ ["Address operation failed: " ++ m], trace ++ [op])
    | .failure m =>
      (applied, errors ++ ["Address operation failed: " ++ m], trace ++ [op])
  else if ap.action == ProposalAction.UPDATE then
    let op := WriteOp.updateAddress ap.existing_address_id ap.address.to_dict
    match sys op with
    | .ok => ({ applied with addresses := applied.addresses + 1 },
              errors, trace ++ [op])
    | .duplicateIdentifier m =>
      (applied, errors ++ ["Address operation failed: " ++ m], trace ++ [op])
    | .failure m =>
      (applied, errors ++ ["Address operation failed: " ++ m], trace ++ [op])
  else
    ({ applied with addresses := applied.addresses + 1 }, errors, trace)

/-- The identifier writes a selection gives rise to: one per ADD-tagged
selected identifier proposal. -/
def identOps (entity_id : String) (l : List IdentifierProposal) : List WriteOp :=
  (l.filter (fun ip => ip.action == ProposalAction.ADD)).map
    (fun ip => WriteOp.addIdentifier entity_id ip.identifier_type
      ip.identifier_value ip.registry_name)

/-- The contact writes a selection gives rise to: one per selected contact. -/
def contOps (entity_id : String) (l : List ContactProposal) : List WriteOp :=
  l.map (fun cp => WriteOp.addContact entity_id cp.contact_type
    cp.contact_value cp.label)

/-- The address writes a selection gives rise to: an insert per ADD, an
update per UPDATE, nothing otherwise. -/
def addrOps (entity_id : String) : List AddressProposal → List WriteOp
  | [] => []
  | ap :: l =>
    (if ap.action == ProposalAction.ADD then
      [WriteOp.addAddress entity_id ap.address.to_dict]
     else if ap.action == ProposalAction.UPDATE then
      [WriteOp.updateAddress ap.existing_address_id ap.address.to_dict]
     else []) ++ addrOps entity_id l

/-- The writes the apply step attempts for a proposal and selection — a
function of the selection only, independent of any write's outcome. -/
def applyTrace (entity_id : String) (proposal : EnrichmentProposal)
    (sel : Selections) : List WriteOp :=
  (if sel.apply_core && !proposal.core_updates.isEmpty then
    [WriteOp.updateEntity entity_id proposal.core_updates] else []) ++
  (if sel.apply_type_specific && !proposal.type_specific_updates.isEmpty then
    [WriteOp.updateEntity entity_id proposal.type_specific_updates] else []) ++
  identOps entity_id sel.identifiers ++ contOps entity_id sel.contacts ++
  addrOps entity_id sel.addresses

/-- The invariant tying the apply state to its own trace: one error per
failed attempted write, and per-category counts equal to the successful
attempted writes of that category. -/
def ApplyInv (sys : WriteOp → WriteResult)
    (st : ApplyCounts × List String × List WriteOp) : Prop :=
  st.2.1.length = (st.2.2.filter (fun op => sys op != WriteResult.ok)).length ∧
  st.1.identifiers =
    (st.2.2.filter (fun op => op.isIdentWrite && sys op == WriteResult.ok)).length ∧
  st.1.contacts =
    (st.2.2.filter (fun op => op.isContactWrite && sys op == WriteResult.ok)).length ∧
  st.1.addresses =
    (st.2.2.filter (fun op => op.isAddressWrite && sys op == WriteResult.ok)).length

/-- A concrete oracle for exercising the apply step: contact writes fail,
everything else succeeds. -/
def c7Sys : WriteOp → WriteResult
  | WriteOp.addContact _ _ _ _ => WriteResult.failure "db down"
  | _ => WriteResult.ok

def c7Proposal : EnrichmentProposal :=
  { entity_id := "e1", source_system := "KRS", external_id := "0000123456",
    core_updates := [("canonical_label", "X")] }

def c7Sel : Selections :=
  { apply_core := true,
    identifiers := [{ identifier_type := "NIP", identifier_value := "123" }],
    contacts := [{ contact_type := "email", contact_value := "a@b.c" }] }

def c7CexProposal : EnrichmentProposal :=
  { entity_id := "e1", source_system := "KRS", external_id := "0000123456",
    core_updates := [("canonical_label", "X"), ("status", "Y")] }

def c7CexSel : Selections :=
  { apply_core := true,
    addresses := [{ address := { address_type := "MAIN" },
                    action := ProposalAction.SKIP }] }

/-- `apply_all` as decided from the first console answer. -/
def promptApplyAll (ans : Nat → String) : Bool :=
  answerAt ans 0 == "y" || answerAt ans 0 == "yes" ||
  answerAt ans 0 == "a" || answerAt ans 0 == "all"

/-- The core/type-specific prompts of the interactive selection. -/
def promptCoreTs (proposal : EnrichmentProposal) (ans : Nat → String)
    (apply_all : Bool) : Selections × Nat :=
  let st : Selections × Nat := ({}, 1)
  let st :=
    if !proposal.core_updates.isEmpty then
      if apply_all then ({ st.1 with apply_core := true }, st.2)
      else ({ st.1 with apply_core := isYes (answerAt ans st.2) }, st.2 + 1)
    else st
  if !proposal.type_specific_updates.isEmpty then
    if apply_all then ({ st.1 with apply_type_specific := true }, st.2)
    else ({ st.1 with apply_type_specific := isYes (answerAt ans st.2) }, st.2 + 1)
  else st

/-- One identifier prompt: SKIP-tagged proposals are passed over without
being offered. -/
def promptIdentStep (ans : Nat → String) (apply_all : Bool)
    (st : Selections × Nat) (ident : IdentifierProposal) : Selections × Nat :=
  if ident.action == ProposalAction.SKIP then st
  else if apply_all then
    ({ st.1 with identifiers := st.1.identifiers ++ [ident] }, st.2)
  else if isYes (answerAt ans st.2) then
    ({ st.1 with identifiers := st.1.identifiers ++ [ident] }, st.2 + 1)
  else (st.1, st.2 + 1)

/-- One contact prompt. -/
def promptContStep (ans : Nat → String) (apply_all : Bool)
    (st : Selections × Nat) (contact : ContactProposal) : Selections × Nat :=
  if apply_all then
    ({ st.1 with contacts := st.1.contacts ++ [contact] }, st.2)
  else if isYes (answerAt ans st.2) then
    ({ st.1 with contacts := st.1.contacts ++ [contact] }, st.2 + 1)
  else (st.1, st.2 + 1)

/-- One address prompt: UPDATEs ask even in apply-all mode. -/
def promptAddrStep (ans : Nat → String) (apply_all : Bool)
    (st : Selections × Nat) (addr_prop : AddressProposal) : Selections × Nat :=
  if addr_prop.action == ProposalAction.ADD then
    if apply_all then
      ({ st.1 with addresses := st.1.addresses ++ [addr_prop] }, st.2)
    else if isYes (answerAt ans st.2) then
      ({ st.1 with addresses := st.1.addresses ++ [addr_prop] }, st.2 + 1)
    else (st.1, st.2 + 1)
  else
    if isYes (answerAt ans st.2) then
      ({ st.1 with addresses := st.1.addresses ++ [addr_prop] }, st.2 + 1)
    else (st.1, st.2 + 1)

/-! ## Helper lemmas -/

theorem le_toDigitsCore_length : ∀ (f n : Nat) (l : List Char),
    l.length ≤ (Nat.toDigitsCore 10 f n l).length := by
  intro f
  induction f with
  | zero => intro n l; simp [Nat.toDigitsCore]
  | succ f ih =>
    intro n l
    simp only [Nat.toDigitsCore]
    split
    · simp
    · exact le_trans (by simp) (ih (n / 10) (Nat.digitChar (n % 10) :: l))

theorem toDigits_length_pos (n : Nat) : 0 < (Nat.toDigits 10 n).length := by
  show 0 < (Nat.toDigitsCore 10 (n + 1) n []).length
  simp only [Nat.toDigitsCore]
  split
  · simp
  · exact lt_of_lt_of_le (by simp)
      (le_toDigitsCore_length n (n / 10) [Nat.digitChar (n % 10)])

theorem natRepr_ne_empty (n : Nat) : Nat.repr n ≠ "" := by
  intro h
  have hd : Nat.toDigits 10 n = ([] : List Char) := String.data_eq_of_eq h
  have hp := toDigits_length_pos n
  rw [hd] at hp
  exact Nat.lt_irrefl 0 hp

theorem intToString_ne_empty (n : Int) : toString n ≠ "" := by
  show Int.repr n ≠ ""
  match n with
  | .ofNat m => exact natRepr_ne_empty m
  | .negSucc m =>
    intro h
    have h2 : ("-" ++ Nat.repr (m + 1) : String) = "" := h
    have hd := String.data_eq_of_eq h2
    rw [String.data_append] at hd
    simp at hd

theorem pyRepr_ne_empty (j : Json) : pyRepr j ≠ "" := by
  cases j with
  | null => decide
  | bool b => cases b <;> decide
  | num n => exact intToString_ne_empty n
  | str s =>
    intro h
    have hd := String.data_eq_of_eq h
    simp only [pyRepr, String.data_append] at hd
    simp at hd
  | arr xs =>
    intro h
    have hd := String.data_eq_of_eq h
    simp only [pyRepr, String.data_append] at hd
    simp at hd
  | obj fs =>
    intro h
    have hd := String.data_eq_of_eq h
    simp only [pyRepr, String.data_append] at hd
    simp at hd

theorem pyStr_ne_empty_of_truthy (j : Json) (h : j.truthy = true) : pyStr j ≠ "" := by
  cases j with
  | str s => simpa [Json.truthy, pyStr] using h
  | null => simp [Json.truthy] at h
  | bool b => exact pyRepr_ne_empty (.bool b)
  | num n => exact pyRepr_ne_empty (.num n)
  | arr xs => exact pyRepr_ne_empty (.arr xs)
  | obj fs => exact pyRepr_ne_empty (.obj fs)

theorem ensureStrKeySearch_ne_empty (fs : List (String × Json)) (r : String)
    (h : ensureStrKeySearch fs = some r) : r ≠ "" := by
  unfold ensureStrKeySearch at h
  obtain ⟨key, -, hk⟩ := List.exists_of_findSome?_eq_some h
  revert hk
  cases lookupAssoc fs key with
  | none => intro hk; cases hk
  | some v =>
    by_cases hv : v.truthy = true
    · simp only [hv, if_true]
      intro hk; cases hk
      exact pyStr_ne_empty_of_truthy v hv
    · simp only [Bool.not_eq_true] at hv
      simp [hv]

theorem ensureStrValueFallback_ne_empty (fs : List (String × Json)) (r : String)
    (h : ensureStrValueFallback fs = some r) : r ≠ "" := by
  unfold ensureStrValueFallback at h
  obtain ⟨kv, -, hk⟩ := List.exists_of_findSome?_eq_some h
  revert hk
  cases kv.2 with
  | str s =>
    by_cases hs : pyStrip s = ""
    · simp [hs]
    · simp only [bne_iff_ne, ne_eq, hs, not_false_eq_true, if_true]
      intro hk; cases hk
      intro hr; subst hr; exact hs rfl
  | null => intro hk; cases hk
  | bool b => intro hk; cases hk
  | num n => intro hk; cases hk
  | arr xs => intro hk; cases hk
  | obj gs => intro hk; cases hk

/-- `_ensure_str` never returns a present-but-empty string: its result is
either absent or truthy. -/
theorem ensureStr_ne_some_empty (j : Json) (s : String)
    (h : ensureStr j = some s) : s ≠ "" := by
  cases j with
  | null => simp [ensureStr] at h
  | num n =>
    simp only [ensureStr, Option.some.injEq] at h
    subst h; exact intToString_ne_empty n
  | bool b =>
    simp only [ensureStr, Option.some.injEq] at h
    subst h; cases b <;> decide
  | str t =>
    by_cases ht : pyStrip t = ""
    · simp [ensureStr, ht] at h
    · simp only [ensureStr] at h
      rw [if_neg (by simpa using ht)] at h
      cases h
      intro hs; subst hs; exact ht rfl
  | obj fs => exact ensureStrKeySearch_ne_empty fs s h
  | arr xs =>
    cases xs with
    | nil => simp [ensureStr] at h
    | cons first rest =>
      cases first with
      | str t =>
        by_cases ht : pyStrip t = ""
        · simp [ensureStr, ht] at h
        · simp only [ensureStr] at h
          rw [if_neg (by simpa using ht)] at h
          cases h
          intro hs; subst hs; exact ht rfl
      | obj fs =>
        simp only [ensureStr] at h
        revert h
        cases hk : ensureStrKeySearch fs with
        | some r =>
          intro h; cases h
          exact ensureStrKeySearch_ne_empty fs s hk
        | none =>
          cases hf : ensureStrValueFallback fs with
          | some r =>
            intro h; cases h
            exact ensureStrValueFallback_ne_empty fs s hf
          | none =>
            by_cases hfs : Json.truthy (.obj fs) = true
            · simp [hfs]
              intro h; subst h
              exact pyRepr_ne_empty (.obj fs)
            · simp [Bool.not_eq_true] at hfs
              simp [hfs]
      | null => simp [ensureStr, Json.truthy] at h
      | bool b =>
        simp only [ensureStr] at h
        revert h
        by_cases hb : (Json.bool b).truthy = true
        · simp [hb]
          intro h; subst h
          exact pyStr_ne_empty_of_truthy _ hb
        · simp [Bool.not_eq_true] at hb
          simp [hb]
      | num n =>
        simp only [ensureStr] at h
        revert h
        by_cases hb : (Json.num n).truthy = true
        · simp [hb]
          intro h; subst h
          exact pyStr_ne_empty_of_truthy _ hb
        · simp [Bool.not_eq_true] at hb
          simp [hb]
      | arr ys =>
        simp only [ensureStr] at h
        revert h
        by_cases hb : (Json.arr ys).truthy = true
        · simp [hb]
          intro h; subst h
          exact pyStr_ne_empty_of_truthy _ hb
        · simp [Bool.not_eq_true] at hb
          simp [hb]

/-- If an `_ensure_str` result is not truthy, it is absent. -/
theorem ensureStr_none_of_not_truthy (j : Json)
    (h : truthyS (ensureStr j) = false) : ensureStr j = none := by
  cases he : ensureStr j with
  | none => rfl
  | some s =>
    rw [he] at h
    simp [truthyS] at h
    exact absurd h (ensureStr_ne_some_empty j s he)

theorem truthyFilter_eq_self (v : Option String) (h : truthyS v = true) :
    truthyFilter v = v := by
  cases v with
  | none => simp [truthyS] at h
  | some s => simp [truthyS] at h; simp [truthyFilter, h]

theorem firstTruthy_cons (f : Json → Option String) (item : Json) (rest : List Json) :
    firstTruthy f (item :: rest) =
      (match truthyFilter (f item) with
       | some s => some s
       | none => firstTruthy f rest) := by
  unfold firstTruthy
  rw [List.findSome?_cons]
  cases truthyFilter (f item) <;> rfl

theorem nipOfEntry_none_of_not_truthy (item : Json)
    (h : truthyS (nipOfEntry item) = false) : nipOfEntry item = none :=
  ensureStr_none_of_not_truthy _ h

theorem regonOfEntry_none_of_not_truthy (item : Json)
    (h : truthyS (regonOfEntry item) = false) : regonOfEntry item = none :=
  ensureStr_none_of_not_truthy _ h

/-- The one-step accumulator update of the scan loop preserves the
invariant "absent unless truthy". -/
theorem step_inv (f : Json → Option String)
    (hpure : ∀ it, truthyS (f it) = false → f it = none)
    (v : Option String) (hv : truthyS v = false → v = none) (item : Json) :
    truthyS (if truthyS v then v else f item) = false →
    (if truthyS v then v else f item) = none := by
  cases htv : truthyS v
  · simpa using hpure item
  · simpa using hv

/-- Absorbing one scanned entry into the "pick" specification. -/
theorem pick_absorb (f : Json → Option String)
    (hpure : ∀ it, truthyS (f it) = false → f it = none)
    (v : Option String) (hv : truthyS v = false → v = none)
    (item : Json) (rest : List Json) :
    (if truthyS (if truthyS v then v else f item) then
      (if truthyS v then v else f item)
     else firstTruthy f rest) =
      (if truthyS v then v else firstTruthy f (item :: rest)) := by
  cases htv : truthyS v
  · obtain rfl : v = none := hv htv
    rw [firstTruthy_cons]
    simp only [show truthyS (none : Option String) = false from rfl,
      Bool.false_eq_true, if_false]
    cases htf : truthyS (f item)
    · rw [hpure item htf]
      simp [truthyFilter]
    · rw [truthyFilter_eq_self _ htf]
      simp only [htf, if_true]
      cases hf : f item with
      | none => rw [hf] at htf; simp [truthyS] at htf
      | some s => simp
  · simp [htv]

/-- The reverse-scan loop with early break computes, per kind, the first
truthy value along the scan. -/
theorem krsIdentLoop_eq : ∀ (l : List Json) (nip regon : Option String),
    (truthyS nip = false → nip = none) → (truthyS regon = false → regon = none) →
    krsIdentLoop l nip regon =
      ((if truthyS nip then nip else firstTruthy nipOfEntry l),
       (if truthyS regon then regon else firstTruthy regonOfEntry l)) := by
  intro l
  induction l with
  | nil =>
    intro nip regon hn hr
    cases htn : truthyS nip
    · cases htr : truthyS regon
      · simp [krsIdentLoop, firstTruthy, List.findSome?, htn, htr, hn htn, hr htr]
      · simp [krsIdentLoop, firstTruthy, List.findSome?, htn, htr, hn htn]
    · cases htr : truthyS regon
      · simp [krsIdentLoop, firstTruthy, List.findSome?, htn, htr, hr htr]
      · simp [krsIdentLoop, firstTruthy, List.findSome?, htn, htr]
  | cons item rest ih =>
    intro nip regon hn hr
    have hn' := step_inv nipOfEntry nipOfEntry_none_of_not_truthy nip hn item
    have hr' := step_inv regonOfEntry regonOfEntry_none_of_not_truthy regon hr item
    have habsn := pick_absorb nipOfEntry nipOfEntry_none_of_not_truthy nip hn item rest
    have habsr := pick_absorb regonOfEntry regonOfEntry_none_of_not_truthy regon hr item rest
    show (if _ && _ then _ else krsIdentLoop rest _ _) = _
    by_cases hb : (truthyS (if truthyS nip then nip else nipOfEntry item) &&
        truthyS (if truthyS regon then regon else regonOfEntry item)) = true
    · rw [if_pos hb]
      rw [Bool.and_eq_true] at hb
      obtain ⟨b1, b2⟩ := hb
      rw [← habsn, ← habsr, if_pos b1, if_pos b2]
    · rw [if_neg hb, ih _ _ hn' hr', ← habsn, ← habsr]

/-- C5: for every KRS payload whose historical identifier list is `l`, the
normalizer keeps, per kind (NIP, REGON), the first non-absent value found
scanning `l` in reverse — i.e. the value of the latest entry that carries
the kind — and the early break once both kinds resolve does not change
this. -/
theorem C5_identifier_recency (l : List Json) :
    extractKrsIdentifiers (.arr l) =
      (firstTruthy nipOfEntry l.reverse, firstTruthy regonOfEntry l.reverse) ∧
    (normalize_krs_response (mkKrsIdentPayload l)).map (fun p => (p.nip, p.regon)) =
      .ok (firstTruthy nipOfEntry l.reverse, firstTruthy regonOfEntry l.reverse) := by
  have h1 : extractKrsIdentifiers (.arr l) =
      (firstTruthy nipOfEntry l.reverse, firstTruthy regonOfEntry l.reverse) := by
    show krsIdentLoop l.reverse none none = _
    rw [krsIdentLoop_eq l.reverse none none (fun _ => rfl) (fun _ => rfl)]
    rfl
  refine ⟨h1, ?_⟩
  have h2 : (normalize_krs_response (mkKrsIdentPayload l)).map (fun p => (p.nip, p.regon)) =
      .ok (extractKrsIdentifiers (.arr l)) := rfl
  rw [h2, h1]

/-- C2 (amended, court-registry half): `normalize_krs_response` returns a
profile without raising on every dict payload, however malformed its
sub-structures — every access is wrapped in `_ensure_dict`/`_ensure_str`
so malformed data degrades to absent fields. -/
theorem C2_krs_normalization_total (fs : List (String × Json)) :
    ∃ p, normalize_krs_response (.obj fs) = .ok p :=
  ⟨_, rfl⟩

/-- C2 counterexample: `normalize_ceidg_response` raises (AttributeError)
on the payload `{"kontakt": []}` — a list where the contact dict is
expected — refuting totality of both normalizers. -/
theorem C2_counterexample :
    normalize_ceidg_response (.obj [("kontakt", .arr [])]) = .error .attributeError := rfl

/-- C3 counterexample: `_ensure_str` returns a non-empty scalar string
unchanged, not trimmed — on `" a "` it returns `" a "`, which differs
from the trimmed value `"a"`. -/
theorem C3_counterexample :
    ensureStr (.str " a ") = some " a " ∧ pyStrip " a " = "a" ∧
    ensureStr (.str " a ") ≠ some (pyStrip " a ") :=
  ⟨rfl, rfl, by decide⟩

/-- C3 (amended): the scalar-extraction rules of `_ensure_str`, with the
string case returning the original (untrimmed) string whenever it is
non-empty after trimming; null and empty-after-trim give absent; numbers
and booleans are stringified; a list recurses into its first element,
searching candidate keys when that element is a dict before falling back
to the first non-empty string among the dict values; never raises on any
of the six unusual shapes. -/
theorem C3_shape_coercion :
    (ensureStr .null = none) ∧
    (∀ s : String, pyStrip s = "" → ensureStr (.str s) = none) ∧
    (∀ s : String, pyStrip s ≠ "" → ensureStr (.str s) = some s) ∧
    (∀ n : Int, ensureStr (.num n) = some (toString n)) ∧
    (ensureStr (.bool true) = some "True" ∧ ensureStr (.bool false) = some "False") ∧
    (ensureStr (.arr []) = none) ∧
    (∀ (s : String) (rest : List Json),
      ensureStr (.arr (.str s :: rest)) = ensureStr (.str s)) ∧
    (∀ (fs : List (String × Json)) (rest : List Json) (r : String),
      ensureStrKeySearch fs = some r → ensureStr (.arr (.obj fs :: rest)) = some r) ∧
    (∀ (fs : List (String × Json)) (rest : List Json) (r : String),
      ensureStrKeySearch fs = none → ensureStrValueFallback fs = some r →
      ensureStr (.arr (.obj fs :: rest)) = some r) ∧
    (∀ (fs : List (String × Json)), ensureStr (.obj fs) = ensureStrKeySearch fs) ∧
    (ensureStr (.str "") = none ∧
     ensureStr (.arr [.num 1, .num 2]) = some "1" ∧
     ensureStr (.arr [.obj [("value", .str "v")], .null]) = some "v" ∧
     ensureStr (.obj [("a", .obj [("b", .str "c")])]) = none) := by
  refine ⟨rfl, ?_, ?_, fun n => rfl, ⟨rfl, rfl⟩, rfl, fun s rest => rfl, ?_, ?_,
    fun fs => rfl, ⟨rfl, rfl, rfl, rfl⟩⟩
  · intro s h; simp [ensureStr, h]
  · intro s h; simp [ensureStr, h]
  · intro fs rest r h; simp [ensureStr, h]
  · intro fs rest r h1 h2; simp [ensureStr, h1, h2]

/-- C4: the identifier decision procedure of `_propose_identifier`, with
comparison on normalized values (spaces and dashes stripped): a value
already on the entity yields exactly one info message and no proposal; a
collision in the cross-entity index yields exactly one SKIP proposal
carrying the colliding entity id plus exactly one warning referencing it;
otherwise exactly one ADD proposal. -/
theorem C4_identifier_decision (pr : EnrichmentProposal) (e : Entity)
    (t : String) (v : Option String) (idx : Option AllIdentifiers)
    (hv : truthyS v = true) :
    (normIdent (v.getD "") ∈ get_existing_identifier_values e t →
      propose_identifier pr e t v idx =
        { pr with info_messages := pr.info_messages ++
            [t ++ " " ++ normIdent (v.getD "") ++ " already exists on entity"] }) ∧
    (∀ cid : String, normIdent (v.getD "") ∉ get_existing_identifier_values e t →
      collisionLookup idx t (normIdent (v.getD "")) = some cid →
      propose_identifier pr e t v idx =
        { pr with
            warnings := pr.warnings ++
              [t ++ " " ++ normIdent (v.getD "") ++
               " already exists on another entity (" ++ cid ++ ")"]
            identifiers_to_add := pr.identifiers_to_add ++
              [{ identifier_type := t
                 identifier_value := normIdent (v.getD "")
                 action := .SKIP
                 reason := "Collision with entity " ++ cid
                 collision_entity_id := some cid }] }) ∧
    (normIdent (v.getD "") ∉ get_existing_identifier_values e t →
      collisionLookup idx t (normIdent (v.getD "")) = none →
      propose_identifier pr e t v idx =
        { pr with identifiers_to_add := pr.identifiers_to_add ++
            [{ identifier_type := t
               identifier_value := normIdent (v.getD "")
               action := .ADD
               reason := "From registry"
               collision_entity_id := none }] }) := by
  refine ⟨?_, ?_, ?_⟩
  · intro hmem
    unfold propose_identifier
    rw [hv]
    simp only [Bool.not_true, Bool.false_eq_true, if_false]
    rw [if_pos hmem]
  · intro cid hmem hcol
    unfold propose_identifier
    rw [hv]
    simp only [Bool.not_true, Bool.false_eq_true, if_false]
    rw [if_neg hmem, hcol]
    simp
  · intro hmem hcol
    unfold propose_identifier
    rw [hv]
    simp only [Bool.not_true, Bool.false_eq_true, if_false]
    rw [if_neg hmem, hcol]
    simp

/-- Witness for C4: the spec's collision scenario — index maps NIP
1234567890 to entity E2, target entity E1 lacks the identifier; the
result is exactly one SKIP proposal with collision id E2 and one warning
naming E2. -/
theorem C4_identifier_decision_witness :
    propose_identifier
      { entity_id := "E1", source_system := "KRS", external_id := "" }
      { fields := [("id", some "E1")] } "NIP" (some "1234567890")
      (some [("NIP", [("1234567890", "E2")])]) =
      { entity_id := "E1", source_system := "KRS", external_id := ""
        warnings := ["NIP 1234567890 already exists on another entity (E2)"]
        identifiers_to_add := [{ identifier_type := "NIP"
                                 identifier_value := "1234567890"
                                 action := .SKIP
                                 reason := "Collision with entity E2"
                                 collision_entity_id := some "E2" }] } := by
  have h := (C4_identifier_decision
    { entity_id := "E1", source_system := "KRS", external_id := "" }
    { fields := [("id", some "E1")] } "NIP" (some "1234567890")
    (some [("NIP", [("1234567890", "E2")])]) (by decide)).2.1
    "E2" (by decide) (by decide)
  rw [h]
  rfl

/-- `_propose_identifier` only appends: warnings, info messages and
identifier proposals grow by its delta, every other field is unchanged. -/
theorem propose_identifier_spec (pr : EnrichmentProposal) (e : Entity)
    (t : String) (v : Option String) (idx : Option AllIdentifiers) :
    propose_identifier pr e t v idx =
      { pr with
          warnings := pr.warnings ++ (piDelta e t v idx).1
          info_messages := pr.info_messages ++ (piDelta e t v idx).2.1
          identifiers_to_add := pr.identifiers_to_add ++ (piDelta e t v idx).2.2 } := by
  unfold propose_identifier piDelta
  cases htv : truthyS v
  · simp
  · simp only [Bool.not_true, Bool.false_eq_true, if_false]
    by_cases hm : normIdent (v.getD "") ∈ get_existing_identifier_values e t
    · rw [if_pos hm, if_pos hm]
      simp
    · rw [if_neg hm, if_neg hm]
      cases hcol : collisionLookup idx t (normIdent (v.getD "")) <;> simp [hcol]

/-- `_propose_contact` only appends info messages and contact proposals. -/
theorem propose_contact_spec (pr : EnrichmentProposal) (e : Entity)
    (t : String) (v : Option String) (label : Option String) :
    propose_contact pr e t v label =
      { pr with
          info_messages := pr.info_messages ++ (pcDelta e t v label).1
          contacts_to_add := pr.contacts_to_add ++ (pcDelta e t v label).2 } := by
  unfold propose_contact pcDelta
  cases htv : truthyS v
  · simp
  · simp only [Bool.not_true, Bool.false_eq_true, if_false]
    by_cases hm : pyLower (pyStrip (v.getD "")) ∈ get_existing_contact_values e t
    · rw [if_pos hm, if_pos hm]
      simp
    · rw [if_neg hm, if_neg hm]
      simp

/-- `_propose_address` only appends info messages and address proposals. -/
theorem propose_address_spec (pr : EnrichmentProposal) (e : Entity)
    (address : Option NormalizedAddress) :
    propose_address pr e address =
      { pr with
          info_messages := pr.info_messages ++ (paDelta e address).1
          address_proposals := pr.address_proposals ++ (paDelta e address).2 } := by
  unfold propose_address paDelta
  cases address with
  | none => simp
  | some addr =>
    cases hex : get_existing_address_by_type e addr.address_type with
    | none => simp [hex]
    | some existing =>
      simp only [hex]
      split <;> simp

/-- Folding `_propose_address` over a list of addresses appends the
concatenated deltas. -/
theorem propose_address_foldl_spec (e : Entity) (l : List NormalizedAddress) :
    ∀ pr : EnrichmentProposal,
    l.foldl (fun pr a => propose_address pr e (some a)) pr =
      { pr with
          info_messages := pr.info_messages ++
            (l.map (fun a => (paDelta e (some a)).1)).flatten
          address_proposals := pr.address_proposals ++
            (l.map (fun a => (paDelta e (some a)).2)).flatten } := by
  induction l with
  | nil => intro pr; simp
  | cons a rest ih =>
    intro pr
    simp only [List.foldl_cons, List.map_cons, List.flatten]
    rw [propose_address_spec, ih]
    simp

theorem paDelta_none (e : Entity) : paDelta e none = ([], []) := rfl

theorem generate_krs_eq_stage5 (e : Entity) (p : NormalizedKRSProfile)
    (idx : Option AllIdentifiers) :
    generate_krs_proposal e p idx = krsStage5 e p idx := rfl

theorem krsStage1_eq (e : Entity) (p : NormalizedKRSProfile) (idx : Option AllIdentifiers) :
    krsStage1 e p idx =
      { entity_id := pyStrS (e.getD "id" (some ""))
        source_system := "KRS"
        external_id := pyOrStr p.krs ""
        identifiers_to_add := (piDelta e "KRS" p.krs idx).2.2 ++
          (piDelta e "NIP" p.nip idx).2.2 ++ (piDelta e "REGON" p.regon idx).2.2
        warnings := (piDelta e "KRS" p.krs idx).1 ++ (piDelta e "NIP" p.nip idx).1 ++
          (piDelta e "REGON" p.regon idx).1
        info_messages := (piDelta e "KRS" p.krs idx).2.1 ++
          (piDelta e "NIP" p.nip idx).2.1 ++ (piDelta e "REGON" p.regon idx).2.1 } := by
  unfold krsStage1
  rw [propose_identifier_spec, propose_identifier_spec, propose_identifier_spec]
  simp [List.append_assoc]

theorem krsStage2_eq (e : Entity) (p : NormalizedKRSProfile) (idx : Option AllIdentifiers) :
    krsStage2 e p idx =
      { krsStage1 e p idx with
          type_specific_updates := krsTypeSpecificUpdates e p
          warnings := (krsStage1 e p idx).warnings ++ krsTypeSpecificWarnings e p } := by
  have hts : (krsStage1 e p idx).type_specific_updates = [] := by
    rw [krsStage1_eq]
  unfold krsStage2 krsTypeSpecificUpdates krsTypeSpecificWarnings
  split_ifs <;> simp_all <;> (try (split_ifs <;> simp_all)) <;>
    (conv_rhs => rw [← hts])

theorem krsStage3_eq (e : Entity) (p : NormalizedKRSProfile) (idx : Option AllIdentifiers) :
    krsStage3 e p idx =
      { krsStage2 e p idx with core_updates := krsCoreUpdates e p } := by
  have hcu : (krsStage2 e p idx).core_updates = [] := by
    rw [krsStage2_eq, krsStage1_eq]
  unfold krsStage3 krsCoreUpdates
  by_cases hc : (truthyS p.official_name &&
      !truthyS (e.getD "canonical_label" (some ""))) = true
  · rw [if_pos hc, if_pos hc]
    simp [hcu]
  · rw [if_neg hc, if_neg hc]
    conv_rhs => rw [← hcu]

theorem krsStage4_eq (e : Entity) (p : NormalizedKRSProfile) (idx : Option AllIdentifiers) :
    krsStage4 e p idx =
      { krsStage3 e p idx with
          info_messages := (krsStage3 e p idx).info_messages ++
            ((pcDelta e "EMAIL" p.email (some "KRS")).1 ++
             (pcDelta e "WEBSITE" p.website (some "KRS")).1 ++
             (pcDelta e "PHONE" p.phone (some "KRS")).1)
          contacts_to_add := (krsStage3 e p idx).contacts_to_add ++
            ((pcDelta e "EMAIL" p.email (some "KRS")).2 ++
             (pcDelta e "WEBSITE" p.website (some "KRS")).2 ++
             (pcDelta e "PHONE" p.phone (some "KRS")).2) } := by
  unfold krsStage4
  rw [propose_contact_spec, propose_contact_spec, propose_contact_spec]
  simp [List.append_assoc]

theorem krsStage5_eq (e : Entity) (p : NormalizedKRSProfile) (idx : Option AllIdentifiers) :
    krsStage5 e p idx =
      ({ krsStage4 e p idx with
          info_messages := (krsStage4 e p idx).info_messages ++
            ((paDelta e (krsSeatTagged p)).1 ++ (paDelta e (krsCorrTagged p)).1)
          address_proposals := (krsStage4 e p idx).address_proposals ++
            ((paDelta e (krsSeatTagged p)).2 ++ (paDelta e (krsCorrTagged p)).2) },
       krsTagged p) := by
  unfold krsStage5 krsTagged krsSeatTagged krsCorrTagged
  cases hsa : p.seat_address <;> cases hca : p.correspondence_address <;>
    simp [hsa, hca, propose_address_spec, paDelta_none, List.append_assoc]
  all_goals (nth_rewrite 1 [← hsa]; rw [← hca])

theorem generate_ceidg_eq_stage5 (e : Entity) (p : NormalizedCEIDGProfile)
    (idx : Option AllIdentifiers) :
    generate_ceidg_proposal e p idx = ceidgStage5 e p idx := rfl

theorem ceidgStage1_eq (e : Entity) (p : NormalizedCEIDGProfile)
    (idx : Option AllIdentifiers) :
    ceidgStage1 e p idx =
      { entity_id := pyStrS (e.getD "id" (some ""))
        source_system := "CEIDG"
        external_id := pyOrStr p.nip (pyOrStr p.regon "")
        identifiers_to_add := (piDelta e "NIP" p.nip idx).2.2 ++
          (piDelta e "REGON" p.regon idx).2.2
        warnings := (piDelta e "NIP" p.nip idx).1 ++ (piDelta e "REGON" p.regon idx).1
        info_messages := (piDelta e "NIP" p.nip idx).2.1 ++
          (piDelta e "REGON" p.regon idx).2.1 } := by
  unfold ceidgStage1
  rw [propose_identifier_spec, propose_identifier_spec]
  simp [List.append_assoc]

set_option maxHeartbeats 1600000 in
theorem ceidgStage2_eq (e : Entity) (p : NormalizedCEIDGProfile)
    (idx : Option AllIdentifiers) :
    ceidgStage2 e p idx =
      { ceidgStage1 e p idx with
          type_specific_updates := ceidgTypeSpecificUpdates e p
          warnings := (ceidgStage1 e p idx).warnings ++
            ceidgTypeSpecificWarnings e p } := by
  have hts : (ceidgStage1 e p idx).type_specific_updates = [] := by
    rw [ceidgStage1_eq]
  unfold ceidgStage2 ceidgTypeSpecificUpdates ceidgTypeSpecificWarnings
  split_ifs <;> simp_all <;> (conv_rhs => rw [← hts])

theorem ceidgStage3_eq (e : Entity) (p : NormalizedCEIDGProfile)
    (idx : Option AllIdentifiers) :
    ceidgStage3 e p idx =
      { ceidgStage2 e p idx with core_updates := ceidgCoreUpdates e p } := by
  have hcu : (ceidgStage2 e p idx).core_updates = [] := by
    rw [ceidgStage2_eq, ceidgStage1_eq]
  unfold ceidgStage3 ceidgCoreUpdates
  split_ifs <;> simp_all
  all_goals (try (split_ifs <;> simp_all))
  all_goals (conv_rhs => rw [← hcu])

theorem ceidgStage4_eq (e : Entity) (p : NormalizedCEIDGProfile)
    (idx : Option AllIdentifiers) :
    ceidgStage4 e p idx =
      { ceidgStage3 e p idx with
          info_messages := (ceidgStage3 e p idx).info_messages ++
            ((pcDelta e "EMAIL" p.email (some "CEIDG")).1 ++
             (pcDelta e "WEBSITE" p.website (some "CEIDG")).1 ++
             (pcDelta e "PHONE" p.phone (some "CEIDG")).1)
          contacts_to_add := (ceidgStage3 e p idx).contacts_to_add ++
            ((pcDelta e "EMAIL" p.email (some "CEIDG")).2 ++
             (pcDelta e "WEBSITE" p.website (some "CEIDG")).2 ++
             (pcDelta e "PHONE" p.phone (some "CEIDG")).2) } := by
  unfold ceidgStage4
  rw [propose_contact_spec, propose_contact_spec, propose_contact_spec]
  simp [List.append_assoc]

theorem ceidgStage5_eq (e : Entity) (p : NormalizedCEIDGProfile)
    (idx : Option AllIdentifiers) :
    ceidgStage5 e p idx =
      ({ ceidgStage4 e p idx with
          info_messages := (ceidgStage4 e p idx).info_messages ++
            ((paDelta e (ceidgMainTagged p)).1 ++
             (paDelta e p.correspondence_address).1 ++
             (p.business_addresses.map (fun a => (paDelta e (some a)).1)).flatten)
          address_proposals := (ceidgStage4 e p idx).address_proposals ++
            ((paDelta e (ceidgMainTagged p)).2 ++
             (paDelta e p.correspondence_address).2 ++
             (p.business_addresses.map (fun a => (paDelta e (some a)).2)).flatten) },
       ceidgTagged p) := by
  unfold ceidgStage5 ceidgTagged ceidgMainTagged
  simp only []
  rw [propose_address_foldl_spec]
  cases hma : p.main_address <;> cases hca : p.correspondence_address <;>
    simp [hma, hca, propose_address_spec, paDelta_none, List.append_assoc]
  case none.none =>
    nth_rewrite 2 [← hca]
    rw [← hma]
  case none.some =>
    rw [← hca, ← hma]

theorem krsSeatTagged_tagged (p : NormalizedKRSProfile) :
    krsSeatTagged (krsTagged p) = krsSeatTagged p := by
  cases hsa : p.seat_address <;>
    simp [krsSeatTagged, krsTagged, krsCorrTagged, hsa]

theorem krsCorrTagged_tagged (p : NormalizedKRSProfile) :
    krsCorrTagged (krsTagged p) = krsCorrTagged p := by
  cases hca : p.correspondence_address <;>
    simp [krsCorrTagged, krsTagged, krsSeatTagged, hca]

theorem krsTagged_idem (p : NormalizedKRSProfile) :
    krsTagged (krsTagged p) = krsTagged p := by
  show { krsTagged p with
          seat_address := krsSeatTagged (krsTagged p),
          correspondence_address := krsCorrTagged (krsTagged p) } = krsTagged p
  rw [krsSeatTagged_tagged, krsCorrTagged_tagged]
  rfl

theorem krsStage1_tagged (e : Entity) (p : NormalizedKRSProfile)
    (idx : Option AllIdentifiers) :
    krsStage1 e (krsTagged p) idx = krsStage1 e p idx := by
  unfold krsStage1
  simp [krsTagged]

theorem krsStage2_tagged (e : Entity) (p : NormalizedKRSProfile)
    (idx : Option AllIdentifiers) :
    krsStage2 e (krsTagged p) idx = krsStage2 e p idx := by
  unfold krsStage2
  simp only [krsStage1_tagged]
  simp [krsTagged]

theorem krsStage3_tagged (e : Entity) (p : NormalizedKRSProfile)
    (idx : Option AllIdentifiers) :
    krsStage3 e (krsTagged p) idx = krsStage3 e p idx := by
  unfold krsStage3
  simp only [krsStage2_tagged]
  simp [krsTagged]

theorem krsStage4_tagged (e : Entity) (p : NormalizedKRSProfile)
    (idx : Option AllIdentifiers) :
    krsStage4 e (krsTagged p) idx = krsStage4 e p idx := by
  unfold krsStage4
  simp only [krsStage3_tagged]
  simp [krsTagged]

theorem ceidgMainTagged_tagged (p : NormalizedCEIDGProfile) :
    ceidgMainTagged (ceidgTagged p) = ceidgMainTagged p := by
  cases hma : p.main_address <;>
    simp [ceidgMainTagged, ceidgTagged, hma]

theorem ceidgTagged_idem (p : NormalizedCEIDGProfile) :
    ceidgTagged (ceidgTagged p) = ceidgTagged p := by
  show { ceidgTagged p with main_address := ceidgMainTagged (ceidgTagged p) } = ceidgTagged p
  rw [ceidgMainTagged_tagged]
  rfl

theorem ceidgStage1_tagged (e : Entity) (p : NormalizedCEIDGProfile)
    (idx : Option AllIdentifiers) :
    ceidgStage1 e (ceidgTagged p) idx = ceidgStage1 e p idx := by
  unfold ceidgStage1
  simp [ceidgTagged]

theorem ceidgStage2_tagged (e : Entity) (p : NormalizedCEIDGProfile)
    (idx : Option AllIdentifiers) :
    ceidgStage2 e (ceidgTagged p) idx = ceidgStage2 e p idx := by
  unfold ceidgStage2
  simp only [ceidgStage1_tagged]
  simp [ceidgTagged]

theorem ceidgStage3_tagged (e : Entity) (p : NormalizedCEIDGProfile)
    (idx : Option AllIdentifiers) :
    ceidgStage3 e (ceidgTagged p) idx = ceidgStage3 e p idx := by
  unfold ceidgStage3
  simp only [ceidgStage2_tagged]
  simp [ceidgTagged]

theorem ceidgStage4_tagged (e : Entity) (p : NormalizedCEIDGProfile)
    (idx : Option AllIdentifiers) :
    ceidgStage4 e (ceidgTagged p) idx = ceidgStage4 e p idx := by
  unfold ceidgStage4
  simp only [ceidgStage3_tagged]
  simp [ceidgTagged]

/-- The change-summary fold collects, in `to_dict` order, exactly the
fields whose truthy new value differs from the existing row's value. -/
theorem changes_foldl_eq (ex : Row) : ∀ (l : List (String × Option String))
    (acc : List String),
    l.foldl (fun changes kv =>
      let old_val := rowGet ex kv.1
      if truthyS kv.2 && kv.2 != old_val then
        changes ++ [kv.1 ++ ": " ++ (if truthyS old_val then pyStrS old_val else "(empty)")
          ++ " → " ++ pyStrS kv.2]
      else changes) acc =
    acc ++ (l.filter (fun kv => truthyS kv.2 && kv.2 != rowGet ex kv.1)).map
      (fun kv => kv.1 ++ ": " ++
        (if truthyS (rowGet ex kv.1) then pyStrS (rowGet ex kv.1) else "(empty)")
        ++ " → " ++ pyStrS kv.2) := by
  intro l
  induction l with
  | nil => intro acc; simp
  | cons x xs ih =>
    intro acc
    simp only [List.foldl_cons, List.filter_cons]
    cases hp : truthyS x.2 && x.2 != rowGet ex x.1
    · rw [if_neg (by simp [hp]), ih]
      simp
    · rw [if_pos (by simp), ih]
      simp

/-- `get_changes_summary` against a non-empty existing row, as a
filter-and-format of `to_dict`. -/
theorem get_changes_summary_eq (ap : AddressProposal) (ex : Row)
    (hne : ex.isEmpty = false) :
    ap.get_changes_summary (some ex) =
      (ap.address.to_dict.filter
        (fun kv => truthyS kv.2 && kv.2 != rowGet ex kv.1)).map
      (fun kv => kv.1 ++ ": " ++
        (if truthyS (rowGet ex kv.1) then pyStrS (rowGet ex kv.1) else "(empty)")
        ++ " → " ++ pyStrS kv.2) := by
  simp only [AddressProposal.get_changes_summary]
  rw [if_neg (by simp [hne])]
  rw [changes_foldl_eq]
  simp

/-- C6 (amended): the address-diff procedure of `_propose_address`: no
existing address of the type yields exactly one ADD; against an existing
row the change summary contains a field exactly when its truthy new value
differs from the row's value; a non-trivial summary yields exactly one
UPDATE carrying the existing address id, a trivial one only an info
message.  In the spec's concrete scenario the canonical address also
carries the default country "PL", so the summary is `building_no` alone
only when the existing row already stores country "PL". -/
theorem C6_address_diff (pr : EnrichmentProposal) (e : Entity) (a : NormalizedAddress) :
    (get_existing_address_by_type e a.address_type = none →
      propose_address pr e (some a) =
        { pr with address_proposals := pr.address_proposals ++
            [{ address := a, action := .ADD
               reason := "No " ++ a.address_type ++ " address exists" }] }) ∧
    (∀ ex : Row, ex.isEmpty = false → ∀ ap : AddressProposal,
      ap.get_changes_summary (some ex) =
        (ap.address.to_dict.filter
          (fun kv => truthyS kv.2 && kv.2 != rowGet ex kv.1)).map
        (fun kv => kv.1 ++ ": " ++
          (if truthyS (rowGet ex kv.1) then pyStrS (rowGet ex kv.1) else "(empty)")
          ++ " → " ++ pyStrS kv.2)) ∧
    (∀ ex : Row, get_existing_address_by_type e a.address_type = some ex →
      (AddressProposal.mk a .UPDATE (some (pyStrS (rowGet ex "id")))
          ("Update " ++ a.address_type ++ " address from registry")).get_changes_summary
          (some ex) ≠ [] →
      (AddressProposal.mk a .UPDATE (some (pyStrS (rowGet ex "id")))
          ("Update " ++ a.address_type ++ " address from registry")).get_changes_summary
          (some ex) ≠ ["New address"] →
      propose_address pr e (some a) =
        { pr with address_proposals := pr.address_proposals ++
            [AddressProposal.mk a .UPDATE (some (pyStrS (rowGet ex "id")))
              ("Update " ++ a.address_type ++ " address from registry")] }) ∧
    (∀ ex : Row, get_existing_address_by_type e a.address_type = some ex →
      (AddressProposal.mk a .UPDATE (some (pyStrS (rowGet ex "id")))
          ("Update " ++ a.address_type ++ " address from registry")).get_changes_summary
          (some ex) = [] →
      propose_address pr e (some a) =
        { pr with info_messages := pr.info_messages ++
            [a.address_type ++ " address matches registry data"] }) := by
  refine ⟨?_, ?_, ?_, ?_⟩
  · intro hnone
    simp only [propose_address, hnone]
  · intro ex hne ap
    exact get_changes_summary_eq ap ex hne
  · intro ex hfound h1 h2
    simp only [propose_address, hfound]
    rw [if_pos (by
      simp only [Bool.and_eq_true, Bool.not_eq_true', bne_iff_ne, ne_eq]
      exact ⟨by simpa using h1, h2⟩)]
  · intro ex hfound h1
    simp only [propose_address, hfound]
    rw [if_neg (by simp [h1])]

/-- C6 counterexample: in the spec's concrete scenario — existing MAIN
address holding only city and street, canonical address additionally
carrying building number "1" — the change summary also contains
`country` (the canonical address always carries the default "PL"), not
only `building_no`. -/
theorem C6_counterexample :
    (AddressProposal.mk
      { address_type := "MAIN", city := some "WARSZAWA"
        street := some "MARSZAŁKOWSKA", building_no := some "1" }
      .UPDATE (some "addr-1") "").get_changes_summary
      (some [("id", some "addr-1"), ("address_type", some "MAIN"),
             ("city", some "WARSZAWA"), ("street", some "MARSZAŁKOWSKA")]) =
      ["country: (empty) → PL", "building_no: (empty) → 1"] ∧
    ("country: (empty) → PL" :: ["building_no: (empty) → 1"]) ≠
      ["building_no: (empty) → 1"] :=
  ⟨rfl, by decide⟩

/-- Witness for C6: the amended concrete scenario — when the existing MAIN
row also stores country "PL", the proposal is exactly one UPDATE carrying
the existing address id, with a change summary containing only
`building_no`. -/
theorem C6_address_diff_witness :
    propose_address { entity_id := "e1", source_system := "KRS", external_id := "" }
      { fields := [("id", some "e1")]
        addresses := [[("id", some "addr-1"), ("address_type", some "MAIN"),
          ("city", some "WARSZAWA"), ("street", some "MARSZAŁKOWSKA"),
          ("country", some "PL")]] }
      (some { address_type := "MAIN", city := some "WARSZAWA"
              street := some "MARSZAŁKOWSKA", building_no := some "1" }) =
      { entity_id := "e1", source_system := "KRS", external_id := ""
        address_proposals := [{ address := { address_type := "MAIN"
                                             city := some "WARSZAWA"
                                             street := some "MARSZAŁKOWSKA"
                                             building_no := some "1" }
                                action := .UPDATE
                                existing_address_id := some "addr-1"
                                reason := "Update MAIN address from registry" }] } ∧
    (AddressProposal.mk
      { address_type := "MAIN", city := some "WARSZAWA"
        street := some "MARSZAŁKOWSKA", building_no := some "1" }
      .UPDATE (some "addr-1") "Update MAIN address from registry").get_changes_summary
      (some [("id", some "addr-1"), ("address_type", some "MAIN"),
             ("city", some "WARSZAWA"), ("street", some "MARSZAŁKOWSKA"),
             ("country", some "PL")]) = ["building_no: (empty) → 1"] := by
  have h := (C6_address_diff
    { entity_id := "e1", source_system := "KRS", external_id := "" }
    { fields := [("id", some "e1")]
      addresses := [[("id", some "addr-1"), ("address_type", some "MAIN"),
        ("city", some "WARSZAWA"), ("street", some "MARSZAŁKOWSKA"),
        ("country", some "PL")]] }
    { address_type := "MAIN", city := some "WARSZAWA"
      street := some "MARSZAŁKOWSKA", building_no := some "1" }).2.2.1
    [("id", some "addr-1"), ("address_type", some "MAIN"),
     ("city", some "WARSZAWA"), ("street", some "MARSZAŁKOWSKA"),
     ("country", some "PL")] rfl (by decide) (by decide)
  constructor
  · rw [h]
    rfl
  · rfl

theorem krs_warnings_decomp (e : Entity) (pk : NormalizedKRSProfile)
    (idx : Option AllIdentifiers) :
    (generate_krs_proposal e pk idx).1.warnings =
      ((piDelta e "KRS" pk.krs idx).1 ++ (piDelta e "NIP" pk.nip idx).1 ++
       (piDelta e "REGON" pk.regon idx).1) ++ krsTypeSpecificWarnings e pk := by
  rw [generate_krs_eq_stage5, krsStage5_eq]
  simp only [krsStage4_eq, krsStage3_eq, krsStage2_eq, krsStage1_eq]

theorem krs_tsu_decomp (e : Entity) (pk : NormalizedKRSProfile)
    (idx : Option AllIdentifiers) :
    (generate_krs_proposal e pk idx).1.type_specific_updates =
      krsTypeSpecificUpdates e pk := by
  rw [generate_krs_eq_stage5, krsStage5_eq]
  simp only [krsStage4_eq, krsStage3_eq, krsStage2_eq, krsStage1_eq]

theorem krs_core_decomp (e : Entity) (pk : NormalizedKRSProfile)
    (idx : Option AllIdentifiers) :
    (generate_krs_proposal e pk idx).1.core_updates = krsCoreUpdates e pk := by
  rw [generate_krs_eq_stage5, krsStage5_eq]
  simp only [krsStage4_eq, krsStage3_eq, krsStage2_eq, krsStage1_eq]

theorem ceidg_warnings_decomp (e : Entity) (pc : NormalizedCEIDGProfile)
    (idx : Option AllIdentifiers) :
    (generate_ceidg_proposal e pc idx).1.warnings =
      ((piDelta e "NIP" pc.nip idx).1 ++ (piDelta e "REGON" pc.regon idx).1) ++
      ceidgTypeSpecificWarnings e pc := by
  rw [generate_ceidg_eq_stage5, ceidgStage5_eq]
  simp only [ceidgStage4_eq, ceidgStage3_eq, ceidgStage2_eq, ceidgStage1_eq]

theorem ceidg_tsu_decomp (e : Entity) (pc : NormalizedCEIDGProfile)
    (idx : Option AllIdentifiers) :
    (generate_ceidg_proposal e pc idx).1.type_specific_updates =
      ceidgTypeSpecificUpdates e pc := by
  rw [generate_ceidg_eq_stage5, ceidgStage5_eq]
  simp only [ceidgStage4_eq, ceidgStage3_eq, ceidgStage2_eq, ceidgStage1_eq]

theorem ceidg_core_decomp (e : Entity) (pc : NormalizedCEIDGProfile)
    (idx : Option AllIdentifiers) :
    (generate_ceidg_proposal e pc idx).1.core_updates = ceidgCoreUpdates e pc := by
  rw [generate_ceidg_eq_stage5, ceidgStage5_eq]
  simp only [ceidgStage4_eq, ceidgStage3_eq, ceidgStage2_eq, ceidgStage1_eq]

/-- Every warning of an identifier section is a collision warning with
the section's identifier kind as prefix. -/
theorem piDelta_warn_shape (e : Entity) (t : String) (v : Option String)
    (idx : Option AllIdentifiers) (w : String) (h : w ∈ (piDelta e t v idx).1) :
    ∃ nv cid, w = t ++ " " ++ nv ++ " already exists on another entity (" ++
      cid ++ ")" := by
  simp only [piDelta] at h
  by_cases h1 : (!truthyS v) = true
  · rw [if_pos h1] at h; simp at h
  · rw [if_neg h1] at h
    by_cases h2 : normIdent (v.getD "") ∈ get_existing_identifier_values e t
    · rw [if_pos h2] at h; simp at h
    · rw [if_neg h2] at h
      revert h
      cases collisionLookup idx t (normIdent (v.getD "")) with
      | some cid =>
        intro h
        simp only [List.mem_singleton] at h
        exact ⟨normIdent (v.getD ""), cid, h⟩
      | none => intro h; simp at h

theorem krsTSW_shape (e : Entity) (pk : NormalizedKRSProfile) (w : String)
    (h : w ∈ krsTypeSpecificWarnings e pk) :
    ∃ s u, w = "Registry name differs: '" ++ s ++ "' vs current '" ++ u ++ "'" := by
  simp only [krsTypeSpecificWarnings] at h
  refine ⟨pyStrS pk.official_name, pyStrS (e.getD "registered_name" (some "")), ?_⟩
  split_ifs at h <;> simp_all

theorem ceidgTSW_shape (e : Entity) (pc : NormalizedCEIDGProfile) (w : String)
    (h : w ∈ ceidgTypeSpecificWarnings e pc) :
    (∃ s u, w = "First name differs: '" ++ s ++ "' vs '" ++ u ++ "'") ∨
    (∃ s u, w = "Last name differs: '" ++ s ++ "' vs '" ++ u ++ "'") := by
  simp only [ceidgTypeSpecificWarnings] at h
  by_cases he : (e.get "entity_type" == some "PHYSICAL_PERSON") = true
  · rw [if_pos he] at h
    rcases List.mem_append.mp h with h1 | h2
    · left
      refine ⟨pyStrS pc.first_name, pyStrS (e.get "first_name"), ?_⟩
      split_ifs at h1 <;> simp_all
    · right
      refine ⟨pyStrS pc.last_name, pyStrS (e.get "last_name"), ?_⟩
      split_ifs at h2 <;> simp_all
  · rw [if_neg he] at h
    simp at h

theorem identWarn_ne_krsNameWarn (t : String)
    (ht : t = "KRS" ∨ t = "NIP" ∨ t = "REGON") (nv cid s u : String) :
    t ++ " " ++ nv ++ " already exists on another entity (" ++ cid ++ ")" ≠
    "Registry name differs: '" ++ s ++ "' vs current '" ++ u ++ "'" := by
  rcases ht with h | h | h <;> subst h <;> intro he <;>
    (have hd := congrArg (fun x : String => x.data.take 2) he) <;>
    simp [String.data_append, List.take] at hd

theorem identWarn_ne_firstNameWarn (t : String)
    (ht : t = "NIP" ∨ t = "REGON") (nv cid s u : String) :
    t ++ " " ++ nv ++ " already exists on another entity (" ++ cid ++ ")" ≠
    "First name differs: '" ++ s ++ "' vs '" ++ u ++ "'" := by
  rcases ht with h | h <;> subst h <;> intro he <;>
    (have hd := congrArg (fun x : String => x.data.take 2) he) <;>
    simp [String.data_append, List.take] at hd

theorem identWarn_ne_lastNameWarn (t : String)
    (ht : t = "NIP" ∨ t = "REGON") (nv cid s u : String) :
    t ++ " " ++ nv ++ " already exists on another entity (" ++ cid ++ ")" ≠
    "Last name differs: '" ++ s ++ "' vs '" ++ u ++ "'" := by
  rcases ht with h | h <;> subst h <;> intro he <;>
    (have hd := congrArg (fun x : String => x.data.take 2) he) <;>
    simp [String.data_append, List.take] at hd

theorem firstNameWarn_ne_lastNameWarn (s u s2 u2 : String) :
    "First name differs: '" ++ s ++ "' vs '" ++ u ++ "'" ≠
    "Last name differs: '" ++ s2 ++ "' vs '" ++ u2 ++ "'" := by
  intro he
  have hd := congrArg (fun x : String => x.data.take 2) he
  simp [String.data_append, List.take] at hd

theorem count_krsNameWarn_ident (e : Entity) (pk : NormalizedKRSProfile)
    (idx : Option AllIdentifiers) (s u : String) :
    List.count ("Registry name differs: '" ++ s ++ "' vs current '" ++ u ++ "'")
      ((piDelta e "KRS" pk.krs idx).1 ++ (piDelta e "NIP" pk.nip idx).1 ++
       (piDelta e "REGON" pk.regon idx).1) = 0 := by
  rw [List.count_eq_zero]
  intro hmem
  rcases List.mem_append.mp hmem with hmem12 | hmem3
  · rcases List.mem_append.mp hmem12 with hmem1 | hmem2
    · obtain ⟨nv, cid, hw⟩ := piDelta_warn_shape e "KRS" pk.krs idx _ hmem1
      exact identWarn_ne_krsNameWarn "KRS" (Or.inl rfl) nv cid s u hw.symm
    · obtain ⟨nv, cid, hw⟩ := piDelta_warn_shape e "NIP" pk.nip idx _ hmem2
      exact identWarn_ne_krsNameWarn "NIP" (Or.inr (Or.inl rfl)) nv cid s u hw.symm
  · obtain ⟨nv, cid, hw⟩ := piDelta_warn_shape e "REGON" pk.regon idx _ hmem3
    exact identWarn_ne_krsNameWarn "REGON" (Or.inr (Or.inr rfl)) nv cid s u hw.symm

theorem count_firstNameWarn_ident (e : Entity) (pc : NormalizedCEIDGProfile)
    (idx : Option AllIdentifiers) (s u : String) :
    List.count ("First name differs: '" ++ s ++ "' vs '" ++ u ++ "'")
      ((piDelta e "NIP" pc.nip idx).1 ++ (piDelta e "REGON" pc.regon idx).1) = 0 := by
  rw [List.count_eq_zero]
  intro hmem
  rcases List.mem_append.mp hmem with hmem1 | hmem2
  · obtain ⟨nv, cid, hw⟩ := piDelta_warn_shape e "NIP" pc.nip idx _ hmem1
    exact identWarn_ne_firstNameWarn "NIP" (Or.inl rfl) nv cid s u hw.symm
  · obtain ⟨nv, cid, hw⟩ := piDelta_warn_shape e "REGON" pc.regon idx _ hmem2
    exact identWarn_ne_firstNameWarn "REGON" (Or.inr rfl) nv cid s u hw.symm

theorem count_lastNameWarn_ident (e : Entity) (pc : NormalizedCEIDGProfile)
    (idx : Option AllIdentifiers) (s u : String) :
    List.count ("Last name differs: '" ++ s ++ "' vs '" ++ u ++ "'")
      ((piDelta e "NIP" pc.nip idx).1 ++ (piDelta e "REGON" pc.regon idx).1) = 0 := by
  rw [List.count_eq_zero]
  intro hmem
  rcases List.mem_append.mp hmem with hmem1 | hmem2
  · obtain ⟨nv, cid, hw⟩ := piDelta_warn_shape e "NIP" pc.nip idx _ hmem1
    exact identWarn_ne_lastNameWarn "NIP" (Or.inl rfl) nv cid s u hw.symm
  · obtain ⟨nv, cid, hw⟩ := piDelta_warn_shape e "REGON" pc.regon idx _ hmem2
    exact identWarn_ne_lastNameWarn "REGON" (Or.inr rfl) nv cid s u hw.symm

/-- C8: warnings and info messages accumulate in the fixed category
processing order — identifiers, then type-specific fields, then core
fields, then contacts, then addresses — for both generators; the empty
lists mark categories that emit nothing of that sort (core fields and
contacts emit no warnings, type-specific and core fields no info). -/
theorem C8_message_order (e : Entity) (pk : NormalizedKRSProfile)
    (pc : NormalizedCEIDGProfile) (idx : Option AllIdentifiers) :
    ((generate_krs_proposal e pk idx).1.warnings =
      ((piDelta e "KRS" pk.krs idx).1 ++ (piDelta e "NIP" pk.nip idx).1 ++
       (piDelta e "REGON" pk.regon idx).1) ++ krsTypeSpecificWarnings e pk ++
      [] ++ [] ++ []) ∧
    ((generate_krs_proposal e pk idx).1.info_messages =
      ((piDelta e "KRS" pk.krs idx).2.1 ++ (piDelta e "NIP" pk.nip idx).2.1 ++
       (piDelta e "REGON" pk.regon idx).2.1) ++ [] ++ [] ++
      ((pcDelta e "EMAIL" pk.email (some "KRS")).1 ++
       (pcDelta e "WEBSITE" pk.website (some "KRS")).1 ++
       (pcDelta e "PHONE" pk.phone (some "KRS")).1) ++
      ((paDelta e (krsSeatTagged pk)).1 ++ (paDelta e (krsCorrTagged pk)).1)) ∧
    ((generate_ceidg_proposal e pc idx).1.warnings =
      ((piDelta e "NIP" pc.nip idx).1 ++ (piDelta e "REGON" pc.regon idx).1) ++
      ceidgTypeSpecificWarnings e pc ++ [] ++ [] ++ []) ∧
    ((generate_ceidg_proposal e pc idx).1.info_messages =
      ((piDelta e "NIP" pc.nip idx).2.1 ++ (piDelta e "REGON" pc.regon idx).2.1) ++
      [] ++ [] ++
      ((pcDelta e "EMAIL" pc.email (some "CEIDG")).1 ++
       (pcDelta e "WEBSITE" pc.website (some "CEIDG")).1 ++
       (pcDelta e "PHONE" pc.phone (some "CEIDG")).1) ++
      ((paDelta e (ceidgMainTagged pc)).1 ++ (paDelta e pc.correspondence_address).1 ++
       (pc.business_addresses.map (fun a => (paDelta e (some a)).1)).flatten)) := by
  refine ⟨?_, ?_, ?_, ?_⟩
  · rw [generate_krs_eq_stage5, krsStage5_eq]
    simp only [krsStage4_eq, krsStage3_eq, krsStage2_eq, krsStage1_eq]
    simp [List.append_assoc]
  · rw [generate_krs_eq_stage5, krsStage5_eq]
    simp only [krsStage4_eq, krsStage3_eq, krsStage2_eq, krsStage1_eq]
    simp [List.append_assoc]
  · rw [generate_ceidg_eq_stage5, ceidgStage5_eq]
    simp only [ceidgStage4_eq, ceidgStage3_eq, ceidgStage2_eq, ceidgStage1_eq]
    simp [List.append_assoc]
  · rw [generate_ceidg_eq_stage5, ceidgStage5_eq]
    simp only [ceidgStage4_eq, ceidgStage3_eq, ceidgStage2_eq, ceidgStage1_eq]
    simp [List.append_assoc]

/-- C9: the proposal generators are deterministic and idempotent: with
identical inputs (including the profile as mutated in place by the first
run) a second run produces exactly the same proposal-and-profile pair. -/
theorem C9_generator_idempotent (e : Entity) (pk : NormalizedKRSProfile)
    (pc : NormalizedCEIDGProfile) (idx : Option AllIdentifiers) :
    (generate_krs_proposal e (generate_krs_proposal e pk idx).2 idx =
      generate_krs_proposal e pk idx) ∧
    (generate_ceidg_proposal e (generate_ceidg_proposal e pc idx).2 idx =
      generate_ceidg_proposal e pc idx) := by
  constructor
  · have h2 : (generate_krs_proposal e pk idx).2 = krsTagged pk := by
      rw [generate_krs_eq_stage5, krsStage5_eq]
    rw [h2, generate_krs_eq_stage5, generate_krs_eq_stage5, krsStage5_eq, krsStage5_eq]
    rw [krsStage4_tagged, krsSeatTagged_tagged, krsCorrTagged_tagged, krsTagged_idem]
  · have h2 : (generate_ceidg_proposal e pc idx).2 = ceidgTagged pc := by
      rw [generate_ceidg_eq_stage5, ceidgStage5_eq]
    rw [h2, generate_ceidg_eq_stage5, generate_ceidg_eq_stage5,
      ceidgStage5_eq, ceidgStage5_eq]
    rw [ceidgStage4_tagged, ceidgMainTagged_tagged, ceidgTagged_idem]
    simp [ceidgTagged]

/-- Witness for C3: the amended rules evaluated at concrete inputs. -/
theorem C3_shape_coercion_witness :
    ensureStr (.str "  ") = none ∧ ensureStr (.str " a ") = some " a " ∧
    ensureStr (.arr [.obj [("nazwaSkrocona", .str "AB"), ("nrWpisuWprow", .str "1")],
      .null]) = some "AB" ∧
    ensureStr (.arr [.obj [("x", .str "y")], .null]) = some "y" := by
  have h := C3_shape_coercion
  exact ⟨h.2.1 "  " (by decide), h.2.2.1 " a " (by decide),
    h.2.2.2.2.2.2.2.1 _ [.null] "AB" rfl,
    h.2.2.2.2.2.2.2.2.1 _ [.null] "y" rfl rfl⟩

/-- `entity.get(k)` returning a value forces `entity.get(k, default)` to
return the same value, whatever the default. -/
theorem getD_of_get (e : Entity) (k : String) (u : String) (d : Option String)
    (h : e.get k = some u) : e.getD k d = some u := by
  unfold Entity.get rowGet at h
  unfold Entity.getD
  cases hf : e.fields.find? (fun kv => kv.1 == k) with
  | none => rw [hf] at h; simp at h
  | some kv => rw [hf] at h; simpa using h

/-- C1 (amended): the generators never propose a write to a field that
already holds a non-empty value — `registered_name`, `short_name`,
`legal_form_suffix` and `canonical_label` on the KRS side; `first_name`,
`last_name`, `registered_name` and `canonical_label` on the CEIDG side —
and a differing registered name (KRS) or a case-insensitively differing
first/last name (CEIDG) yields exactly one warning; but, contrary to the
claim, every other warning is an identifier-collision warning, so a
blocked write to any other field (e.g. `short_name`, `legal_form_suffix`,
`canonical_label`, CEIDG `registered_name`) emits no warning at all. -/
theorem C1_no_silent_overwrite (e : Entity) (pk : NormalizedKRSProfile)
    (pc : NormalizedCEIDGProfile) (idx : Option AllIdentifiers) :
    (truthyS (e.getD "registered_name" (some "")) = true →
      lookupAssoc (generate_krs_proposal e pk idx).1.type_specific_updates
        "registered_name" = none) ∧
    (truthyS (e.get "short_name") = true →
      lookupAssoc (generate_krs_proposal e pk idx).1.type_specific_updates
        "short_name" = none) ∧
    (truthyS (e.get "legal_form_suffix") = true →
      lookupAssoc (generate_krs_proposal e pk idx).1.type_specific_updates
        "legal_form_suffix" = none) ∧
    (truthyS (e.getD "canonical_label" (some "")) = true →
      lookupAssoc (generate_krs_proposal e pk idx).1.core_updates
        "canonical_label" = none) ∧
    (truthyS (e.get "first_name") = true →
      lookupAssoc (generate_ceidg_proposal e pc idx).1.type_specific_updates
        "first_name" = none) ∧
    (truthyS (e.get "last_name") = true →
      lookupAssoc (generate_ceidg_proposal e pc idx).1.type_specific_updates
        "last_name" = none) ∧
    (truthyS (e.get "registered_name") = true →
      lookupAssoc (generate_ceidg_proposal e pc idx).1.type_specific_updates
        "registered_name" = none) ∧
    (truthyS (e.getD "canonical_label" (some "")) = true →
      lookupAssoc (generate_ceidg_proposal e pc idx).1.core_updates
        "canonical_label" = none) ∧
    (∀ s u : String, e.get "entity_type" = some "LEGAL_PERSON" →
      pk.official_name = some s → s ≠ "" →
      e.getD "registered_name" (some "") = some u → u ≠ "" → u ≠ s →
      List.count ("Registry name differs: '" ++ s ++ "' vs current '" ++ u ++ "'")
        (generate_krs_proposal e pk idx).1.warnings = 1) ∧
    (∀ s u : String, e.get "entity_type" = some "PHYSICAL_PERSON" →
      pc.first_name = some s → s ≠ "" →
      e.get "first_name" = some u → u ≠ "" → pyUpper s ≠ pyUpper u →
      List.count ("First name differs: '" ++ s ++ "' vs '" ++ u ++ "'")
        (generate_ceidg_proposal e pc idx).1.warnings = 1) ∧
    (∀ s u : String, e.get "entity_type" = some "PHYSICAL_PERSON" →
      pc.last_name = some s → s ≠ "" →
      e.get "last_name" = some u → u ≠ "" → pyUpper s ≠ pyUpper u →
      List.count ("Last name differs: '" ++ s ++ "' vs '" ++ u ++ "'")
        (generate_ceidg_proposal e pc idx).1.warnings = 1) ∧
    (∀ w, w ∈ (generate_krs_proposal e pk idx).1.warnings →
      (∃ t nv cid, (t = "KRS" ∨ t = "NIP" ∨ t = "REGON") ∧
        w = t ++ " " ++ nv ++ " already exists on another entity (" ++ cid ++ ")") ∨
      (∃ s u, w = "Registry name differs: '" ++ s ++ "' vs current '" ++ u ++ "'")) ∧
    (∀ w, w ∈ (generate_ceidg_proposal e pc idx).1.warnings →
      (∃ t nv cid, (t = "NIP" ∨ t = "REGON") ∧
        w = t ++ " " ++ nv ++ " already exists on another entity (" ++ cid ++ ")") ∨
      (∃ s u, w = "First name differs: '" ++ s ++ "' vs '" ++ u ++ "'") ∨
      (∃ s u, w = "Last name differs: '" ++ s ++ "' vs '" ++ u ++ "'")) := by
  refine ⟨?_, ?_, ?_, ?_, ?_, ?_, ?_, ?_, ?_, ?_, ?_, ?_, ?_⟩
  · intro h
    rw [krs_tsu_decomp]
    simp only [krsTypeSpecificUpdates]
    split_ifs <;> simp_all [dictSet, lookupAssoc, List.find?]
  · intro h
    rw [krs_tsu_decomp]
    simp only [krsTypeSpecificUpdates]
    split_ifs <;> simp_all [dictSet, lookupAssoc, List.find?]
  · intro h
    rw [krs_tsu_decomp]
    simp only [krsTypeSpecificUpdates]
    split_ifs <;> simp_all [dictSet, lookupAssoc, List.find?]
  · intro h
    rw [krs_core_decomp]
    simp only [krsCoreUpdates]
    split_ifs <;> simp_all [dictSet, lookupAssoc, List.find?]
  · intro h
    rw [ceidg_tsu_decomp]
    simp only [ceidgTypeSpecificUpdates]
    split_ifs <;> simp_all [dictSet, lookupAssoc, List.find?]
  · intro h
    rw [ceidg_tsu_decomp]
    simp only [ceidgTypeSpecificUpdates]
    split_ifs <;> simp_all [dictSet, lookupAssoc, List.find?]
  · intro h
    rw [ceidg_tsu_decomp]
    simp only [ceidgTypeSpecificUpdates]
    split_ifs <;> simp_all [dictSet, lookupAssoc, List.find?]
  · intro h
    rw [ceidg_core_decomp]
    simp only [ceidgCoreUpdates]
    split_ifs <;> simp_all [dictSet, lookupAssoc, List.find?]
  · intro s u hty hofc hsne hcur hune hus
    have h1 : truthyS (some s) = true := by simp [truthyS, hsne]
    have h2 : truthyS (some u) = true := by simp [truthyS, hune]
    have hp1 : pyStrS (some s) = s := rfl
    have hp2 : pyStrS (some u) = u := rfl
    have htsw : krsTypeSpecificWarnings e pk =
        ["Registry name differs: '" ++ s ++ "' vs current '" ++ u ++ "'"] := by
      simp [krsTypeSpecificWarnings, hty, hofc, hcur, h1, h2, hp1, hp2, hus]
    rw [krs_warnings_decomp, List.count_append, count_krsNameWarn_ident, htsw]
    simp
  · intro s u hty hof hsne hcu hune hus
    have hcd := getD_of_get e "first_name" u (some "") hcu
    have h1 : truthyS (some s) = true := by simp [truthyS, hsne]
    have h2 : truthyS (some u) = true := by simp [truthyS, hune]
    have hp1 : pyStrS (some s) = s := rfl
    have hp2 : pyStrS (some u) = u := rfl
    rw [ceidg_warnings_decomp, List.count_append, count_firstNameWarn_ident]
    by_cases hl : (truthyS pc.last_name && truthyS (e.get "last_name")) = true
    · by_cases hl2 : (pyUpper (pc.last_name.getD "") !=
          pyUpper ((e.getD "last_name" (some "")).getD "")) = true
      · have htsw : ceidgTypeSpecificWarnings e pc =
            ["First name differs: '" ++ s ++ "' vs '" ++ u ++ "'",
             "Last name differs: '" ++ pyStrS pc.last_name ++ "' vs '" ++
               pyStrS (e.get "last_name") ++ "'"] := by
          simp [ceidgTypeSpecificWarnings, hty, hof, hcu, hcd, h1, h2, hp1, hp2,
            hus, hl, hl2]
        have hne : (("First name differs: '" ++ s ++ "' vs '" ++ u ++ "'") ==
            ("Last name differs: '" ++ pyStrS pc.last_name ++ "' vs '" ++
              pyStrS (e.get "last_name") ++ "'")) = false :=
          beq_eq_false_iff_ne.mpr (firstNameWarn_ne_lastNameWarn _ _ _ _)
        simp [htsw, List.count_cons, hne]
        exact Ne.symm (firstNameWarn_ne_lastNameWarn _ _ _ _)
      · have htsw : ceidgTypeSpecificWarnings e pc =
            ["First name differs: '" ++ s ++ "' vs '" ++ u ++ "'"] := by
          simp [ceidgTypeSpecificWarnings, hty, hof, hcu, hcd, h1, h2, hp1, hp2,
            hus, hl, hl2]
        simp [htsw]
    · have htsw : ceidgTypeSpecificWarnings e pc =
          ["First name differs: '" ++ s ++ "' vs '" ++ u ++ "'"] := by
        simp [ceidgTypeSpecificWarnings, hty, hof, hcu, hcd, h1, h2, hp1, hp2,
          hus, hl]
      simp [htsw]
  · intro s u hty hof hsne hcu hune hus
    have hcd := getD_of_get e "last_name" u (some "") hcu
    have h1 : truthyS (some s) = true := by simp [truthyS, hsne]
    have h2 : truthyS (some u) = true := by simp [truthyS, hune]
    have hp1 : pyStrS (some s) = s := rfl
    have hp2 : pyStrS (some u) = u := rfl
    rw [ceidg_warnings_decomp, List.count_append, count_lastNameWarn_ident]
    by_cases hf1 : (truthyS pc.first_name && truthyS (e.get "first_name")) = true
    · by_cases hf2 : (pyUpper (pc.first_name.getD "") !=
          pyUpper ((e.getD "first_name" (some "")).getD "")) = true
      · have htsw : ceidgTypeSpecificWarnings e pc =
            ["First name differs: '" ++ pyStrS pc.first_name ++ "' vs '" ++
               pyStrS (e.get "first_name") ++ "'",
             "Last name differs: '" ++ s ++ "' vs '" ++ u ++ "'"] := by
          simp [ceidgTypeSpecificWarnings, hty, hof, hcu, hcd, h1, h2, hp1, hp2,
            hus, hf1, hf2]
        have hne : (("Last name differs: '" ++ s ++ "' vs '" ++ u ++ "'") ==
            ("First name differs: '" ++ pyStrS pc.first_name ++ "' vs '" ++
              pyStrS (e.get "first_name") ++ "'")) = false :=
          beq_eq_false_iff_ne.mpr (firstNameWarn_ne_lastNameWarn _ _ _ _).symm
        simp [htsw, List.count_cons, hne]
        exact firstNameWarn_ne_lastNameWarn _ _ _ _
      · have htsw : ceidgTypeSpecificWarnings e pc =
            ["Last name differs: '" ++ s ++ "' vs '" ++ u ++ "'"] := by
          simp [ceidgTypeSpecificWarnings, hty, hof, hcu, hcd, h1, h2, hp1, hp2,
            hus, hf1, hf2]
        simp [htsw]
    · have htsw : ceidgTypeSpecificWarnings e pc =
          ["Last name differs: '" ++ s ++ "' vs '" ++ u ++ "'"] := by
        simp [ceidgTypeSpecificWarnings, hty, hof, hcu, hcd, h1, h2, hp1, hp2,
          hus, hf1]
      simp [htsw]
  · intro w hw
    rw [krs_warnings_decomp] at hw
    rcases List.mem_append.mp hw with hid | hts
    · left
      rcases List.mem_append.mp hid with h12 | h3
      · rcases List.mem_append.mp h12 with hx1 | hx2
        · obtain ⟨nv, cid, hwf⟩ := piDelta_warn_shape e "KRS" pk.krs idx w hx1
          exact ⟨"KRS", nv, cid, Or.inl rfl, hwf⟩
        · obtain ⟨nv, cid, hwf⟩ := piDelta_warn_shape e "NIP" pk.nip idx w hx2
          exact ⟨"NIP", nv, cid, Or.inr (Or.inl rfl), hwf⟩
      · obtain ⟨nv, cid, hwf⟩ := piDelta_warn_shape e "REGON" pk.regon idx w h3
        exact ⟨"REGON", nv, cid, Or.inr (Or.inr rfl), hwf⟩
    · exact Or.inr (krsTSW_shape e pk w hts)
  · intro w hw
    rw [ceidg_warnings_decomp] at hw
    rcases List.mem_append.mp hw with hid | hts
    · rcases List.mem_append.mp hid with hx1 | hx2
      · obtain ⟨nv, cid, hwf⟩ := piDelta_warn_shape e "NIP" pc.nip idx w hx1
        exact Or.inl ⟨"NIP", nv, cid, Or.inl rfl, hwf⟩
      · obtain ⟨nv, cid, hwf⟩ := piDelta_warn_shape e "REGON" pc.regon idx w hx2
        exact Or.inl ⟨"REGON", nv, cid, Or.inr rfl, hwf⟩
    · rcases ceidgTSW_shape e pc w hts with hsh | hsh
      · exact Or.inr (Or.inl hsh)
      · exact Or.inr (Or.inr hsh)

/-- C1 counterexample: the entity's `short_name` holds the non-empty
value "A" and the profile proposes the different value "B"; the proposal
correctly contains no write to `short_name`, but it emits zero warnings,
not the exactly one warning mentioning the field that the claim
requires. -/
theorem C1_counterexample :
    truthyS (shortNameEntity.get "short_name") = true ∧
    shortNameProfile.short_name = some "B" ∧
    shortNameEntity.get "short_name" ≠ shortNameProfile.short_name ∧
    lookupAssoc (generate_krs_proposal shortNameEntity shortNameProfile
      none).1.type_specific_updates "short_name" = none ∧
    (generate_krs_proposal shortNameEntity shortNameProfile none).1.warnings
      = [] := by
  refine ⟨rfl, rfl, by decide, ?_, ?_⟩ <;> rfl

/-- Witness for C1: the amended statement applied at a LEGAL_PERSON
entity with all KRS-written fields populated and at a PHYSICAL_PERSON
entity with all CEIDG-written fields populated. -/
theorem C1_no_silent_overwrite_witness :
    lookupAssoc (generate_krs_proposal krsWitnessEntity krsWitnessProfile
      none).1.type_specific_updates "registered_name" = none ∧
    lookupAssoc (generate_krs_proposal krsWitnessEntity krsWitnessProfile
      none).1.type_specific_updates "short_name" = none ∧
    lookupAssoc (generate_krs_proposal krsWitnessEntity krsWitnessProfile
      none).1.type_specific_updates "legal_form_suffix" = none ∧
    lookupAssoc (generate_krs_proposal krsWitnessEntity krsWitnessProfile
      none).1.core_updates "canonical_label" = none ∧
    lookupAssoc (generate_ceidg_proposal ceidgWitnessEntity ceidgWitnessProfile
      none).1.type_specific_updates "first_name" = none ∧
    lookupAssoc (generate_ceidg_proposal ceidgWitnessEntity ceidgWitnessProfile
      none).1.type_specific_updates "last_name" = none ∧
    lookupAssoc (generate_ceidg_proposal ceidgWitnessEntity ceidgWitnessProfile
      none).1.type_specific_updates "registered_name" = none ∧
    lookupAssoc (generate_ceidg_proposal ceidgWitnessEntity ceidgWitnessProfile
      none).1.core_updates "canonical_label" = none ∧
    List.count ("Registry name differs: '" ++ "NEW" ++ "' vs current '" ++
        "OLD" ++ "'")
      (generate_krs_proposal krsWitnessEntity krsWitnessProfile none).1.warnings
      = 1 ∧
    List.count ("First name differs: '" ++ "JAN" ++ "' vs '" ++ "Adam" ++ "'")
      (generate_ceidg_proposal ceidgWitnessEntity ceidgWitnessProfile
        none).1.warnings = 1 ∧
    List.count ("Last name differs: '" ++ "NOWAK" ++ "' vs '" ++
        "Kowalski" ++ "'")
      (generate_ceidg_proposal ceidgWitnessEntity ceidgWitnessProfile
        none).1.warnings = 1 := by
  have hk := C1_no_silent_overwrite krsWitnessEntity krsWitnessProfile {} none
  have hc := C1_no_silent_overwrite ceidgWitnessEntity {} ceidgWitnessProfile none
  refine ⟨hk.1 (by decide), hk.2.1 (by decide), hk.2.2.1 (by decide),
    hk.2.2.2.1 (by decide), hc.2.2.2.2.1 (by decide),
    hc.2.2.2.2.2.1 (by decide), hc.2.2.2.2.2.2.1 (by decide),
    hc.2.2.2.2.2.2.2.1 (by decide),
    hk.2.2.2.2.2.2.2.2.1 "NEW" "OLD" rfl rfl (by decide) rfl (by decide)
      (by decide),
    hc.2.2.2.2.2.2.2.2.2.1 "JAN" "Adam" rfl rfl (by decide) rfl (by decide)
      (by decide),
    hc.2.2.2.2.2.2.2.2.2.2.1 "NOWAK" "Kowalski" rfl rfl (by decide) rfl
      (by decide) (by decide)⟩

/-! ## Apply-engine proof layer (C7) -/

/-- The apply step is the composition of its five sections. -/
theorem apply_eq_steps (sys : WriteOp → WriteResult) (entity_id : String)
    (proposal : EnrichmentProposal) (sel : Selections) :
    apply_enrichment_selections sys entity_id proposal sel =
      sel.addresses.foldl (addrStep sys entity_id)
        (sel.contacts.foldl (contStep sys entity_id)
          (sel.identifiers.foldl (identStep sys entity_id)
            (tsStep sys entity_id proposal sel
              (coreStep sys entity_id proposal sel ({}, [], []))))) := rfl

theorem coreStep_trace (sys : WriteOp → WriteResult) (entity_id : String)
    (proposal : EnrichmentProposal) (sel : Selections)
    (st : ApplyCounts × List String × List WriteOp) :
    (coreStep sys entity_id proposal sel st).2.2 = st.2.2 ++
      (if sel.apply_core && !proposal.core_updates.isEmpty then
        [WriteOp.updateEntity entity_id proposal.core_updates] else []) := by
  obtain ⟨a, e, t⟩ := st
  simp only [coreStep]
  split_ifs
  · cases sys (WriteOp.updateEntity entity_id proposal.core_updates) <;> simp
  · simp

theorem tsStep_trace (sys : WriteOp → WriteResult) (entity_id : String)
    (proposal : EnrichmentProposal) (sel : Selections)
    (st : ApplyCounts × List String × List WriteOp) :
    (tsStep sys entity_id proposal sel st).2.2 = st.2.2 ++
      (if sel.apply_type_specific && !proposal.type_specific_updates.isEmpty then
        [WriteOp.updateEntity entity_id proposal.type_specific_updates] else []) := by
  obtain ⟨a, e, t⟩ := st
  simp only [tsStep]
  split_ifs
  · cases sys (WriteOp.updateEntity entity_id proposal.type_specific_updates) <;> simp
  · simp

theorem identStep_trace (sys : WriteOp → WriteResult) (entity_id : String)
    (st : ApplyCounts × List String × List WriteOp) (ip : IdentifierProposal) :
    (identStep sys entity_id st ip).2.2 = st.2.2 ++
      (if ip.action == ProposalAction.ADD then
        [WriteOp.addIdentifier entity_id ip.identifier_type
          ip.identifier_value ip.registry_name] else []) := by
  obtain ⟨a, e, t⟩ := st
  simp only [identStep]
  split_ifs
  · cases sys (WriteOp.addIdentifier entity_id ip.identifier_type
      ip.identifier_value ip.registry_name) <;> simp
  · simp

theorem contStep_trace (sys : WriteOp → WriteResult) (entity_id : String)
    (st : ApplyCounts × List String × List WriteOp) (cp : ContactProposal) :
    (contStep sys entity_id st cp).2.2 = st.2.2 ++
      [WriteOp.addContact entity_id cp.contact_type cp.contact_value cp.label] := by
  obtain ⟨a, e, t⟩ := st
  simp only [contStep]
  cases sys (WriteOp.addContact entity_id cp.contact_type cp.contact_value cp.label) <;>
    simp

theorem addrStep_trace (sys : WriteOp → WriteResult) (entity_id : String)
    (st : ApplyCounts × List String × List WriteOp) (ap : AddressProposal) :
    (addrStep sys entity_id st ap).2.2 = st.2.2 ++
      (if ap.action == ProposalAction.ADD then
        [WriteOp.addAddress entity_id ap.address.to_dict]
       else if ap.action == ProposalAction.UPDATE then
        [WriteOp.updateAddress ap.existing_address_id ap.address.to_dict]
       else []) := by
  obtain ⟨a, e, t⟩ := st
  simp only [addrStep]
  split_ifs
  · cases sys (WriteOp.addAddress entity_id ap.address.to_dict) <;> simp
  · cases sys (WriteOp.updateAddress ap.existing_address_id ap.address.to_dict) <;> simp
  · simp

theorem identFold_trace (sys : WriteOp → WriteResult) (entity_id : String)
    (l : List IdentifierProposal) (st : ApplyCounts × List String × List WriteOp) :
    (l.foldl (identStep sys entity_id) st).2.2 = st.2.2 ++ identOps entity_id l := by
  induction l generalizing st with
  | nil => simp [identOps]
  | cons ip l ih =>
    rw [List.foldl_cons, ih, identStep_trace]
    by_cases hip : (ip.action == ProposalAction.ADD) = true <;>
      simp [identOps, List.filter_cons, hip, List.append_assoc]

theorem contFold_trace (sys : WriteOp → WriteResult) (entity_id : String)
    (l : List ContactProposal) (st : ApplyCounts × List String × List WriteOp) :
    (l.foldl (contStep sys entity_id) st).2.2 = st.2.2 ++ contOps entity_id l := by
  induction l generalizing st with
  | nil => simp [contOps]
  | cons cp l ih =>
    rw [List.foldl_cons, ih, contStep_trace]
    simp [contOps, List.append_assoc]

theorem addrFold_trace (sys : WriteOp → WriteResult) (entity_id : String)
    (l : List AddressProposal) (st : ApplyCounts × List String × List WriteOp) :
    (l.foldl (addrStep sys entity_id) st).2.2 = st.2.2 ++ addrOps entity_id l := by
  induction l generalizing st with
  | nil => simp [addrOps]
  | cons ap l ih =>
    rw [List.foldl_cons, ih, addrStep_trace]
    simp [addrOps, List.append_assoc]

/-- The attempted-writes trace of the apply step is exactly `applyTrace`
of the selection — in particular it does not depend on any write's
outcome, so a failing item never prevents later items being attempted. -/
theorem apply_trace_eq (sys : WriteOp → WriteResult) (entity_id : String)
    (proposal : EnrichmentProposal) (sel : Selections) :
    (apply_enrichment_selections sys entity_id proposal sel).2.2 =
      applyTrace entity_id proposal sel := by
  rw [apply_eq_steps, addrFold_trace, contFold_trace, identFold_trace,
    tsStep_trace, coreStep_trace]
  simp [applyTrace, List.append_assoc]

theorem applyInv_coreStep (sys : WriteOp → WriteResult) (entity_id : String)
    (proposal : EnrichmentProposal) (sel : Selections)
    (st : ApplyCounts × List String × List WriteOp) (h : ApplyInv sys st) :
    ApplyInv sys (coreStep sys entity_id proposal sel st) := by
  obtain ⟨a, e, t⟩ := st
  obtain ⟨h1, h2, h3, h4⟩ := h
  simp only [coreStep]
  split_ifs
  · cases hs : sys (WriteOp.updateEntity entity_id proposal.core_updates) <;>
      exact ⟨by simp_all [ApplyInv, List.filter_append, hs],
        by simp_all [ApplyInv, List.filter_append, hs, WriteOp.isIdentWrite],
        by simp_all [ApplyInv, List.filter_append, hs, WriteOp.isContactWrite],
        by simp_all [ApplyInv, List.filter_append, hs, WriteOp.isAddressWrite]⟩
  · exact ⟨h1, h2, h3, h4⟩

theorem applyInv_tsStep (sys : WriteOp → WriteResult) (entity_id : String)
    (proposal : EnrichmentProposal) (sel : Selections)
    (st : ApplyCounts × List String × List WriteOp) (h : ApplyInv sys st) :
    ApplyInv sys (tsStep sys entity_id proposal sel st) := by
  obtain ⟨a, e, t⟩ := st
  obtain ⟨h1, h2, h3, h4⟩ := h
  simp only [tsStep]
  split_ifs
  · cases hs : sys (WriteOp.updateEntity entity_id proposal.type_specific_updates) <;>
      exact ⟨by simp_all [ApplyInv, List.filter_append, hs],
        by simp_all [ApplyInv, List.filter_append, hs, WriteOp.isIdentWrite],
        by simp_all [ApplyInv, List.filter_append, hs, WriteOp.isContactWrite],
        by simp_all [ApplyInv, List.filter_append, hs, WriteOp.isAddressWrite]⟩
  · exact ⟨h1, h2, h3, h4⟩

theorem applyInv_identStep (sys : WriteOp → WriteResult) (entity_id : String)
    (st : ApplyCounts × List String × List WriteOp) (ip : IdentifierProposal)
    (h : ApplyInv sys st) : ApplyInv sys (identStep sys entity_id st ip) := by
  obtain ⟨a, e, t⟩ := st
  obtain ⟨h1, h2, h3, h4⟩ := h
  simp only [identStep]
  split_ifs
  · cases hs : sys (WriteOp.addIdentifier entity_id ip.identifier_type
        ip.identifier_value ip.registry_name) <;>
      exact ⟨by simp_all [ApplyInv, List.filter_append, hs],
        by simp_all [ApplyInv, List.filter_append, hs, WriteOp.isIdentWrite],
        by simp_all [ApplyInv, List.filter_append, hs, WriteOp.isContactWrite],
        by simp_all [ApplyInv, List.filter_append, hs, WriteOp.isAddressWrite]⟩
  · exact ⟨h1, h2, h3, h4⟩

theorem applyInv_contStep (sys : WriteOp → WriteResult) (entity_id : String)
    (st : ApplyCounts × List String × List WriteOp) (cp : ContactProposal)
    (h : ApplyInv sys st) : ApplyInv sys (contStep sys entity_id st cp) := by
  obtain ⟨a, e, t⟩ := st
  obtain ⟨h1, h2, h3, h4⟩ := h
  simp only [contStep]
  cases hs : sys (WriteOp.addContact entity_id cp.contact_type
      cp.contact_value cp.label) <;>
    exact ⟨by simp_all [ApplyInv, List.filter_append, hs],
      by simp_all [ApplyInv, List.filter_append, hs, WriteOp.isIdentWrite],
      by simp_all [ApplyInv, List.filter_append, hs, WriteOp.isContactWrite],
      by simp_all [ApplyInv, List.filter_append, hs, WriteOp.isAddressWrite]⟩

theorem applyInv_addrStep (sys : WriteOp → WriteResult) (entity_id : String)
    (st : ApplyCounts × List String × List WriteOp) (ap : AddressProposal)
    (hap : ap.action ≠ ProposalAction.SKIP) (h : ApplyInv sys st) :
    ApplyInv sys (addrStep sys entity_id st ap) := by
  obtain ⟨a, e, t⟩ := st
  obtain ⟨h1, h2, h3, h4⟩ := h
  simp only [addrStep]
  split_ifs with ha1 ha2
  · cases hs : sys (WriteOp.addAddress entity_id ap.address.to_dict) <;>
      exact ⟨by simp_all [ApplyInv, List.filter_append, hs],
        by simp_all [ApplyInv, List.filter_append, hs, WriteOp.isIdentWrite],
        by simp_all [ApplyInv, List.filter_append, hs, WriteOp.isContactWrite],
        by simp_all [ApplyInv, List.filter_append, hs, WriteOp.isAddressWrite]⟩
  · cases hs : sys (WriteOp.updateAddress ap.existing_address_id ap.address.to_dict) <;>
      exact ⟨by simp_all [ApplyInv, List.filter_append, hs],
        by simp_all [ApplyInv, List.filter_append, hs, WriteOp.isIdentWrite],
        by simp_all [ApplyInv, List.filter_append, hs, WriteOp.isContactWrite],
        by simp_all [ApplyInv, List.filter_append, hs, WriteOp.isAddressWrite]⟩
  · exact absurd (by cases hac : ap.action <;> simp_all) hap

theorem applyInv_foldl {α : Type}
    (sys : WriteOp → WriteResult)
    (step : (ApplyCounts × List String × List WriteOp) → α →
      (ApplyCounts × List String × List WriteOp))
    (l : List α)
    (hstep : ∀ st x, x ∈ l → ApplyInv sys st → ApplyInv sys (step st x))
    (st : ApplyCounts × List String × List WriteOp) (h : ApplyInv sys st) :
    ApplyInv sys (l.foldl step st) := by
  induction l generalizing st with
  | nil => exact h
  | cons x xs ih =>
    exact ih (fun st' y hy => hstep st' y (List.mem_cons_of_mem x hy)) _
      (hstep st x (List.mem_cons_self x xs) h)

theorem applyInv_init (sys : WriteOp → WriteResult) :
    ApplyInv sys (({} : ApplyCounts), ([] : List String), ([] : List WriteOp)) := by
  refine ⟨rfl, rfl, rfl, rfl⟩

/-- A projection of the apply state unchanged by a step is unchanged by
the whole fold. -/
theorem foldlKeeps {α : Type}
    (f : ApplyCounts × List String × List WriteOp → Nat)
    (step : (ApplyCounts × List String × List WriteOp) → α →
      (ApplyCounts × List String × List WriteOp))
    (hstep : ∀ st x, f (step st x) = f st) (l : List α)
    (st : ApplyCounts × List String × List WriteOp) :
    f (l.foldl step st) = f st := by
  induction l generalizing st with
  | nil => rfl
  | cons x xs ih => rw [List.foldl_cons, ih, hstep]

theorem identStep_keeps_core (sys : WriteOp → WriteResult) (entity_id : String)
    (st : ApplyCounts × List String × List WriteOp) (ip : IdentifierProposal) :
    (identStep sys entity_id st ip).1.core = st.1.core := by
  obtain ⟨a, e, t⟩ := st
  simp only [identStep]
  split_ifs
  · cases sys (WriteOp.addIdentifier entity_id ip.identifier_type
      ip.identifier_value ip.registry_name) <;> simp
  · simp

theorem identStep_keeps_ts (sys : WriteOp → WriteResult) (entity_id : String)
    (st : ApplyCounts × List String × List WriteOp) (ip : IdentifierProposal) :
    (identStep sys entity_id st ip).1.type_specific = st.1.type_specific := by
  obtain ⟨a, e, t⟩ := st
  simp only [identStep]
  split_ifs
  · cases sys (WriteOp.addIdentifier entity_id ip.identifier_type
      ip.identifier_value ip.registry_name) <;> simp
  · simp

theorem contStep_keeps_core (sys : WriteOp → WriteResult) (entity_id : String)
    (st : ApplyCounts × List String × List WriteOp) (cp : ContactProposal) :
    (contStep sys entity_id st cp).1.core = st.1.core := by
  obtain ⟨a, e, t⟩ := st
  simp only [contStep]
  cases sys (WriteOp.addContact entity_id cp.contact_type cp.contact_value cp.label) <;>
    simp

theorem contStep_keeps_ts (sys : WriteOp → WriteResult) (entity_id : String)
    (st : ApplyCounts × List String × List WriteOp) (cp : ContactProposal) :
    (contStep sys entity_id st cp).1.type_specific = st.1.type_specific := by
  obtain ⟨a, e, t⟩ := st
  simp only [contStep]
  cases sys (WriteOp.addContact entity_id cp.contact_type cp.contact_value cp.label) <;>
    simp

theorem addrStep_keeps_core (sys : WriteOp → WriteResult) (entity_id : String)
    (st : ApplyCounts × List String × List WriteOp) (ap : AddressProposal) :
    (addrStep sys entity_id st ap).1.core = st.1.core := by
  obtain ⟨a, e, t⟩ := st
  simp only [addrStep]
  split_ifs
  · cases sys (WriteOp.addAddress entity_id ap.address.to_dict) <;> simp
  · cases sys (WriteOp.updateAddress ap.existing_address_id ap.address.to_dict) <;> simp
  · simp

theorem addrStep_keeps_ts (sys : WriteOp → WriteResult) (entity_id : String)
    (st : ApplyCounts × List String × List WriteOp) (ap : AddressProposal) :
    (addrStep sys entity_id st ap).1.type_specific = st.1.type_specific := by
  obtain ⟨a, e, t⟩ := st
  simp only [addrStep]
  split_ifs
  · cases sys (WriteOp.addAddress entity_id ap.address.to_dict) <;> simp
  · cases sys (WriteOp.updateAddress ap.existing_address_id ap.address.to_dict) <;> simp
  · simp

theorem coreStep_core (sys : WriteOp → WriteResult) (entity_id : String)
    (proposal : EnrichmentProposal) (sel : Selections) :
    (coreStep sys entity_id proposal sel (({} : ApplyCounts), [], [])).1.core =
      (if sel.apply_core && !proposal.core_updates.isEmpty &&
          (sys (WriteOp.updateEntity entity_id proposal.core_updates)
            == WriteResult.ok)
        then proposal.core_updates.length else 0) := by
  simp only [coreStep]
  split_ifs with hc1 hc2 hc3 <;>
    cases hs : sys (WriteOp.updateEntity entity_id proposal.core_updates) <;>
      simp_all

theorem coreStep_keeps_ts (sys : WriteOp → WriteResult) (entity_id : String)
    (proposal : EnrichmentProposal) (sel : Selections)
    (st : ApplyCounts × List String × List WriteOp) :
    (coreStep sys entity_id proposal sel st).1.type_specific =
      st.1.type_specific := by
  obtain ⟨a, e, t⟩ := st
  simp only [coreStep]
  split_ifs
  · cases sys (WriteOp.updateEntity entity_id proposal.core_updates) <;> simp
  · simp

theorem tsStep_keeps_core (sys : WriteOp → WriteResult) (entity_id : String)
    (proposal : EnrichmentProposal) (sel : Selections)
    (st : ApplyCounts × List String × List WriteOp) :
    (tsStep sys entity_id proposal sel st).1.core = st.1.core := by
  obtain ⟨a, e, t⟩ := st
  simp only [tsStep]
  split_ifs
  · cases sys (WriteOp.updateEntity entity_id proposal.type_specific_updates) <;> simp
  · simp

theorem tsStep_ts (sys : WriteOp → WriteResult) (entity_id : String)
    (proposal : EnrichmentProposal) (sel : Selections)
    (st : ApplyCounts × List String × List WriteOp) :
    (tsStep sys entity_id proposal sel st).1.type_specific =
      (if sel.apply_type_specific && !proposal.type_specific_updates.isEmpty &&
          (sys (WriteOp.updateEntity entity_id proposal.type_specific_updates)
            == WriteResult.ok)
        then proposal.type_specific_updates.length else st.1.type_specific) := by
  obtain ⟨a, e, t⟩ := st
  simp only [tsStep]
  split_ifs with hc1 hc2 hc3 <;>
    cases hs : sys (WriteOp.updateEntity entity_id
      proposal.type_specific_updates) <;> simp_all

/-- C7 (amended): the apply step is best-effort — the writes it attempts
are a function of the selection alone (`applyTrace`), so one item's
failure never prevents the remaining selected items, in the same or
other categories, from being attempted; each failed write is recorded as
exactly one error string; the identifier, contact and address counts
equal the number of successful writes of their category (addresses under
the pipeline invariant that selected address proposals are ADD or
UPDATE); but, contrary to the claim, the core and type-specific counts
report the number of FIELDS carried by their single successful write
(still 0 when it raised), and a hypothetical non-ADD/UPDATE address
selection would be counted without any write. -/
theorem C7_best_effort_apply (sys : WriteOp → WriteResult) (entity_id : String)
    (proposal : EnrichmentProposal) (sel : Selections)
    (haddr : ∀ ap ∈ sel.addresses, ap.action ≠ ProposalAction.SKIP) :
    (apply_enrichment_selections sys entity_id proposal sel).2.2 =
      applyTrace entity_id proposal sel ∧
    (apply_enrichment_selections sys entity_id proposal sel).2.1.length =
      ((applyTrace entity_id proposal sel).filter
        (fun op => sys op != WriteResult.ok)).length ∧
    (apply_enrichment_selections sys entity_id proposal sel).1.core =
      (if sel.apply_core && !proposal.core_updates.isEmpty &&
          (sys (WriteOp.updateEntity entity_id proposal.core_updates)
            == WriteResult.ok)
        then proposal.core_updates.length else 0) ∧
    (apply_enrichment_selections sys entity_id proposal sel).1.type_specific =
      (if sel.apply_type_specific && !proposal.type_specific_updates.isEmpty &&
          (sys (WriteOp.updateEntity entity_id proposal.type_specific_updates)
            == WriteResult.ok)
        then proposal.type_specific_updates.length else 0) ∧
    (apply_enrichment_selections sys entity_id proposal sel).1.identifiers =
      ((applyTrace entity_id proposal sel).filter
        (fun op => op.isIdentWrite && sys op == WriteResult.ok)).length ∧
    (apply_enrichment_selections sys entity_id proposal sel).1.contacts =
      ((applyTrace entity_id proposal sel).filter
        (fun op => op.isContactWrite && sys op == WriteResult.ok)).length ∧
    (apply_enrichment_selections sys entity_id proposal sel).1.addresses =
      ((applyTrace entity_id proposal sel).filter
        (fun op => op.isAddressWrite && sys op == WriteResult.ok)).length := by
  have htrace := apply_trace_eq sys entity_id proposal sel
  have hinv : ApplyInv sys (apply_enrichment_selections sys entity_id proposal sel) := by
    rw [apply_eq_steps]
    refine applyInv_foldl sys _ _
      (fun st ap hap h => applyInv_addrStep sys entity_id st ap (haddr ap hap) h) _ ?_
    refine applyInv_foldl sys _ _
      (fun st cp _ h => applyInv_contStep sys entity_id st cp h) _ ?_
    refine applyInv_foldl sys _ _
      (fun st ip _ h => applyInv_identStep sys entity_id st ip h) _ ?_
    exact applyInv_tsStep sys entity_id proposal sel _
      (applyInv_coreStep sys entity_id proposal sel _ (applyInv_init sys))
  obtain ⟨h1, h2, h3, h4⟩ := hinv
  refine ⟨htrace, ?_, ?_, ?_, ?_, ?_, ?_⟩
  · rw [h1, htrace]
  · rw [apply_eq_steps]
    simp only [foldlKeeps (fun st => st.1.core) (addrStep sys entity_id)
        (addrStep_keeps_core sys entity_id) sel.addresses,
      foldlKeeps (fun st => st.1.core) (contStep sys entity_id)
        (contStep_keeps_core sys entity_id) sel.contacts,
      foldlKeeps (fun st => st.1.core) (identStep sys entity_id)
        (identStep_keeps_core sys entity_id) sel.identifiers,
      tsStep_keeps_core, coreStep_core]
  · rw [apply_eq_steps]
    simp only [foldlKeeps (fun st => st.1.type_specific) (addrStep sys entity_id)
        (addrStep_keeps_ts sys entity_id) sel.addresses,
      foldlKeeps (fun st => st.1.type_specific) (contStep sys entity_id)
        (contStep_keeps_ts sys entity_id) sel.contacts,
      foldlKeeps (fun st => st.1.type_specific) (identStep sys entity_id)
        (identStep_keeps_ts sys entity_id) sel.identifiers,
      tsStep_ts, coreStep_keeps_ts]
  · rw [h2, htrace]
  · rw [h3, htrace]
  · rw [h4, htrace]

/-- C7 counterexample: with an all-succeeding storage layer, a
two-field core update is applied through exactly one write, yet the
core count reports 2; and a SKIP-tagged address selection item is
counted as applied although no address write is ever attempted. -/
theorem C7_counterexample :
    (apply_enrichment_selections (fun _ => WriteResult.ok) "e1"
      c7CexProposal c7CexSel).1.core = 2 ∧
    (apply_enrichment_selections (fun _ => WriteResult.ok) "e1"
      c7CexProposal c7CexSel).1.addresses = 1 ∧
    (apply_enrichment_selections (fun _ => WriteResult.ok) "e1"
      c7CexProposal c7CexSel).2.2 =
      [WriteOp.updateEntity "e1" [("canonical_label", "X"), ("status", "Y")]] :=
  ⟨rfl, rfl, rfl⟩

/-- Witness for C7: the characterization applied to a concrete selection
(core update, one identifier, one contact) against an oracle that fails
contact writes and accepts everything else. -/
theorem C7_best_effort_apply_witness :
    (∀ ap ∈ c7Sel.addresses, ap.action ≠ ProposalAction.SKIP) ∧
    (apply_enrichment_selections c7Sys "e1" c7Proposal c7Sel).2.1.length =
      ((applyTrace "e1" c7Proposal c7Sel).filter
        (fun op => c7Sys op != WriteResult.ok)).length ∧
    (apply_enrichment_selections c7Sys "e1" c7Proposal c7Sel).1.identifiers =
      ((applyTrace "e1" c7Proposal c7Sel).filter
        (fun op => op.isIdentWrite && c7Sys op == WriteResult.ok)).length ∧
    (apply_enrichment_selections c7Sys "e1" c7Proposal c7Sel).1.contacts =
      ((applyTrace "e1" c7Proposal c7Sel).filter
        (fun op => op.isContactWrite && c7Sys op == WriteResult.ok)).length ∧
    (apply_enrichment_selections c7Sys "e1" c7Proposal c7Sel).2.2 =
      applyTrace "e1" c7Proposal c7Sel :=
  ⟨by simp [c7Sel],
   (C7_best_effort_apply c7Sys "e1" c7Proposal c7Sel (by simp [c7Sel])).2.1,
   (C7_best_effort_apply c7Sys "e1" c7Proposal c7Sel (by simp [c7Sel])).2.2.2.2.1,
   (C7_best_effort_apply c7Sys "e1" c7Proposal c7Sel (by simp [c7Sel])).2.2.2.2.2.1,
   (C7_best_effort_apply c7Sys "e1" c7Proposal c7Sel (by simp [c7Sel])).1⟩

/-! ## Interactive-selection proof layer (C10) -/

/-- The interactive selection is the composition of its sections. -/
theorem prompt_eq_stages (proposal : EnrichmentProposal) (ans : Nat → String) :
    prompt_apply_proposal proposal ans =
      if !proposal.has_any_proposals then {}
      else if answerAt ans 0 == "q" then {}
      else
        (proposal.address_proposals.foldl (promptAddrStep ans (promptApplyAll ans))
          (proposal.contacts_to_add.foldl (promptContStep ans (promptApplyAll ans))
            (proposal.identifiers_to_add.foldl
              (promptIdentStep ans (promptApplyAll ans))
              (promptCoreTs proposal ans (promptApplyAll ans))))).1 := rfl

theorem promptCoreTs_idents (proposal : EnrichmentProposal) (ans : Nat → String)
    (apply_all : Bool) :
    (promptCoreTs proposal ans apply_all).1.identifiers = [] := by
  simp only [promptCoreTs]
  split_ifs <;> rfl

theorem promptIdentFold_all (ans : Nat → String) (apply_all : Bool)
    (l : List IdentifierProposal) (st : Selections × Nat)
    (h : st.1.identifiers.all (fun ip => ip.action != ProposalAction.SKIP) = true) :
    ((l.foldl (promptIdentStep ans apply_all) st).1.identifiers).all
      (fun ip => ip.action != ProposalAction.SKIP) = true := by
  induction l generalizing st with
  | nil => exact h
  | cons ident l ih =>
    rw [List.foldl_cons]
    apply ih
    simp only [promptIdentStep]
    split_ifs with h1 h2 h3
    · exact h
    · simp_all [List.all_append, bne]
    · simp_all [List.all_append, bne]
    · exact h

theorem promptContFold_idents (ans : Nat → String) (apply_all : Bool)
    (l : List ContactProposal) (st : Selections × Nat) :
    (l.foldl (promptContStep ans apply_all) st).1.identifiers =
      st.1.identifiers := by
  induction l generalizing st with
  | nil => rfl
  | cons c l ih =>
    rw [List.foldl_cons, ih]
    simp only [promptContStep]
    split_ifs <;> rfl

theorem promptAddrFold_idents (ans : Nat → String) (apply_all : Bool)
    (l : List AddressProposal) (st : Selections × Nat) :
    (l.foldl (promptAddrStep ans apply_all) st).1.identifiers =
      st.1.identifiers := by
  induction l generalizing st with
  | nil => rfl
  | cons a l ih =>
    rw [List.foldl_cons, ih]
    simp only [promptAddrStep]
    split_ifs <;> rfl

theorem identOps_filter (entity_id : String) (l : List IdentifierProposal) :
    (identOps entity_id l).filter (fun op => op.isIdentWrite) =
      identOps entity_id l := by
  rw [List.filter_eq_self]
  intro op hop
  simp only [identOps, List.mem_map] at hop
  obtain ⟨ip, _, rfl⟩ := hop
  rfl

theorem contOps_no_ident (entity_id : String) (l : List ContactProposal) :
    (contOps entity_id l).filter (fun op => op.isIdentWrite) = [] := by
  rw [List.filter_eq_nil_iff]
  intro op hop
  simp only [contOps, List.mem_map] at hop
  obtain ⟨cp, _, rfl⟩ := hop
  simp [WriteOp.isIdentWrite]

theorem addrOps_no_ident (entity_id : String) (l : List AddressProposal) :
    (addrOps entity_id l).filter (fun op => op.isIdentWrite) = [] := by
  induction l with
  | nil => rfl
  | cons ap l ih =>
    simp only [addrOps, List.filter_append, ih, List.append_nil]
    split_ifs <;> simp [WriteOp.isIdentWrite]

/-- C10: SKIP-tagged identifier proposals are never applied — the
identifier writes the apply step attempts are exactly one per ADD-tagged
selected identifier proposal, whatever the selection contains (so none
for a SKIP-tagged one) — and the interactive selection never offers a
SKIP-tagged identifier proposal: every identifier in the returned
selection is non-SKIP. -/
theorem C10_skip_never_applied (sys : WriteOp → WriteResult)
    (entity_id : String) (proposal : EnrichmentProposal) (sel : Selections)
    (ans : Nat → String) :
    ((apply_enrichment_selections sys entity_id proposal sel).2.2.filter
      (fun op => op.isIdentWrite)) =
      (sel.identifiers.filter (fun ip => ip.action == ProposalAction.ADD)).map
        (fun ip => WriteOp.addIdentifier entity_id ip.identifier_type
          ip.identifier_value ip.registry_name) ∧
    (prompt_apply_proposal proposal ans).identifiers.all
      (fun ip => ip.action != ProposalAction.SKIP) = true := by
  constructor
  · rw [apply_trace_eq]
    simp only [applyTrace, List.filter_append, identOps_filter,
      contOps_no_ident, addrOps_no_ident, List.append_nil]
    have hc : ((if sel.apply_core && !proposal.core_updates.isEmpty then
        [WriteOp.updateEntity entity_id proposal.core_updates]
        else []).filter (fun op => op.isIdentWrite)) = [] := by
      split_ifs <;> simp [WriteOp.isIdentWrite]
    have ht : ((if sel.apply_type_specific &&
          !proposal.type_specific_updates.isEmpty then
        [WriteOp.updateEntity entity_id proposal.type_specific_updates]
        else []).filter (fun op => op.isIdentWrite)) = [] := by
      split_ifs <;> simp [WriteOp.isIdentWrite]
    rw [hc, ht]
    simp [identOps]
  · rw [prompt_eq_stages]
    split_ifs
    · rfl
    · rfl
    · rw [promptAddrFold_idents, promptContFold_idents]
      exact promptIdentFold_all ans (promptApplyAll ans)
        proposal.identifiers_to_add _ (by rw [promptCoreTs_idents]; rfl)

end BizDB
